import Mathlib

/-!
# Measles spread simulation: the population stepper of `main.c`

A shallow embedding of `initialise_population` and `update_population` of
`Biology Simulation Final/main.c`, and the properties of the per-tick update.

Modelling decisions.

* The C `float` fields `x, y, dx, dy` are exact rationals.  Every value the
  program reaches from `initialise_population` is a multiple of `1/2` of
  magnitude below `2^10`, on which `float` arithmetic is exact.
* `SDL_sqrtf (s) <= INFECTION_RADIUS` is the test `0 ≤ r ∧ s ≤ r * r` on the
  squared distance `s`.
* The `int` fields are integers.  `infection_time++` is the successor in `ℤ`:
  the counter of a reachable population never exceeds `RECOVERY_TIME`
  (`reachable_inv` below), and signed overflow is undefined in C.
* `people` is the memory the pointer `Person *people` addresses: a map from
  indices to records.  The loops touch the indices below `POPULATION` only.
* The `#define`d constants are the fields of a `Config`; `sourceConfig` holds
  the values of `main.c`.
* A value `(float)rand() / RAND_MAX` is one element of a stream of rationals;
  `Sim.next` counts the draws made so far.  `initialise_population` reads the
  integers `rand()` returns from a stream of naturals.
* The parameter `frame` of `update_population` is unused in the source and is
  left out.
-/

namespace BioSim

/-- The record `Person` of `main.c`. -/
structure Person where
  x : ℚ
  y : ℚ
  dx : ℚ
  dy : ℚ
  state : Int
  infection_time : Int
  alive : Int
deriving DecidableEq

/-- A value of the macro `INFECTION_RADIUS` compared with a `float` distance:
a finite number (the source has `10`) or the `float` infinity. -/
inductive Radius where
  | finite (r : ℚ)
  | unbounded
deriving DecidableEq

/-- The compile-time constants of `main.c` the stepper reads. -/
structure Config where
  WINDOW_WIDTH : Nat
  WINDOW_HEIGHT : Nat
  POPULATION : Nat
  INFECTION_RADIUS : Radius
  BETA : ℚ
  RECOVERY_TIME : Int

/-- The constants as `main.c` defines them. -/
def sourceConfig : Config where
  WINDOW_WIDTH := 800
  WINDOW_HEIGHT := 600
  POPULATION := 50
  INFECTION_RADIUS := Radius.finite 10
  BETA := 9 / 10
  RECOVERY_TIME := 300

/-- The array `people` together with the number of `(float)rand() / RAND_MAX`
values drawn so far. -/
structure Sim where
  people : Nat → Person
  next : Nat

/-- The assignment `people[j] = p`. -/
def setPerson (people : Nat → Person) (j : Nat) (p : Person) : Nat → Person :=
  fun k => if k = j then p else people k

/-- The record the loop body of `initialise_population` writes at index `i`;
the four calls of `rand()` it makes are the calls number `4 i` to `4 i + 3`. -/
def fresh_person (cfg : Config) (rand : Nat → Nat) (i : Nat) : Person :=
  { x := ((rand (4 * i) % cfg.WINDOW_WIDTH : Nat) : ℚ)
    y := ((rand (4 * i + 1) % cfg.WINDOW_HEIGHT : Nat) : ℚ)
    dx := ((((rand (4 * i + 2) % 3 : Nat) : Int) - 1 : Int) : ℚ) * 2
    dy := ((((rand (4 * i + 3) % 3 : Nat) : Int) - 1 : Int) : ℚ) * (9 / 2)
    state := 0
    infection_time := 0
    alive := 1 }

/-- Lines 34-40: the loop body of `initialise_population` for index `i`. -/
def initialise_person (cfg : Config) (rand : Nat → Nat) (people : Nat → Person)
    (i : Nat) : Nat → Person :=
  setPerson people i (fresh_person cfg rand i)

/-- The function `initialise_population`: the loop, then patient zero. -/
def initialise_population (cfg : Config) (rand : Nat → Nat)
    (people : Nat → Person) : Nat → Person :=
  let filled := (List.range cfg.POPULATION).foldl (initialise_person cfg rand) people
  setPerson filled 0 { filled 0 with state := 1 }

/-- Lines 53-54: `x += dx; y += dy`. -/
def move (p : Person) : Person :=
  { p with x := p.x + p.dx, y := p.y + p.dy }

/-- Line 57: the reflection at the left and right bounds. -/
def reflect_dx (cfg : Config) (p : Person) : Person :=
  if p.x ≤ 0 ∨ p.x ≥ (cfg.WINDOW_WIDTH : ℚ) then { p with dx := p.dx * (-1) } else p

/-- Line 58: the reflection at the upper and lower bounds. -/
def reflect_dy (cfg : Config) (p : Person) : Person :=
  if p.y ≤ 0 ∨ p.y ≥ (cfg.WINDOW_HEIGHT : ℚ) then { p with dy := p.dy * (-1) } else p

/-- Lines 57-58: the boundary reflection. -/
def reflect (cfg : Config) (p : Person) : Person :=
  reflect_dy cfg (reflect_dx cfg p)

/-- Lines 61-71: infection recovery or death of one person, with `k` draws
made before; returns the person and the number of draws made after. -/
def progress (cfg : Config) (draws : Nat → ℚ) (p : Person) (k : Nat) : Person × Nat :=
  if p.state = 1 then
    let q := { p with infection_time := p.infection_time + 1 }
    if q.infection_time ≥ cfg.RECOVERY_TIME then
      if draws k < 1 / 2 then ({ q with alive := 0 }, k + 1)
      else ({ q with state := 2 }, k + 1)
    else (q, k)
  else (p, k)

/-- Lines 77-79, the test `distance <= INFECTION_RADIUS`. -/
def withinRadius (r : Radius) (a b : Person) : Bool :=
  match r with
  | Radius.unbounded => true
  | Radius.finite r =>
    decide (0 ≤ r ∧ (a.x - b.x) * (a.x - b.x) + (a.y - b.y) * (a.y - b.y) ≤ r * r)

/-- Lines 80-81: the person becomes infected. -/
def infected (p : Person) : Person :=
  { p with state := 1, infection_time := 0 }

/-- Lines 76-83: the body of the inner loop for the pair `(i, j)`.  The draw is
made only when the distance test succeeds (`&&` short-circuits). -/
def infect_step (cfg : Config) (draws : Nat → ℚ) (i : Nat) (s : Sim) (j : Nat) : Sim :=
  if (s.people j).state = 0 ∧ (s.people j).alive ≠ 0 then
    if withinRadius cfg.INFECTION_RADIUS (s.people i) (s.people j) = true then
      if draws s.next < cfg.BETA then
        { people := setPerson s.people j (infected (s.people j)), next := s.next + 1 }
      else { s with next := s.next + 1 }
    else s
  else s

/-- Lines 74-85: the infection spread of person `i`. -/
def spread (cfg : Config) (draws : Nat → ℚ) (i : Nat) (s : Sim) : Sim :=
  if (s.people i).state = 1 then
    (List.range cfg.POPULATION).foldl (infect_step cfg draws i) s
  else s

/-- Lines 53-71 on one record: movement, reflection, progression. -/
def advance (cfg : Config) (draws : Nat → ℚ) (p : Person) (k : Nat) : Person × Nat :=
  progress cfg draws (reflect cfg (move p)) k

/-- Lines 48-85: the body of the outer loop for index `i`. -/
def person_step (cfg : Config) (draws : Nat → ℚ) (s : Sim) (i : Nat) : Sim :=
  if (s.people i).alive = 0 then s
  else
    let r := advance cfg draws (s.people i) s.next
    spread cfg draws i { people := setPerson s.people i r.1, next := r.2 }

/-- The function `update_population`: one tick. -/
def update_population (cfg : Config) (draws : Nat → ℚ) (s : Sim) : Sim :=
  (List.range cfg.POPULATION).foldl (person_step cfg draws) s

/-- The simulation after `t` calls of `update_population` (the loop of `main`). -/
def run (cfg : Config) (draws : Nat → ℚ) : Nat → Sim → Sim
  | 0, s => s
  | t + 1, s => run cfg draws t (update_population cfg draws s)

/-- The simulation `main` starts from: `initialise_population` on the array
`mem`, no draw made yet. -/
def initial (cfg : Config) (rand : Nat → Nat) (mem : Nat → Person) : Sim :=
  { people := initialise_population cfg rand mem, next := 0 }

/-- The simulation just before the outer loop reaches index `i`. -/
def before_person (cfg : Config) (draws : Nat → ℚ) (s : Sim) (i : Nat) : Sim :=
  (List.range i).foldl (person_step cfg draws) s

/-- The effect the infection spread of another person may have on a record:
none, or the infection of a living susceptible. -/
def Touched (p q : Person) : Prop :=
  q = p ∨ (p.state = 0 ∧ p.alive ≠ 0 ∧ q = infected p)

/-- The record of person `i` after lines 48-71 of its own loop iteration. -/
def own (cfg : Config) (draws : Nat → ℚ) (p : Person) (k : Nat) : Person :=
  if p.alive = 0 then p else (advance cfg draws p k).1

/-- What one tick may do to the state and the alive flag of one record. -/
def Lawful (p q : Person) : Prop :=
  (q.state = p.state ∨ (p.state = 0 ∧ q.state = 1) ∨ (p.state = 1 ∧ q.state = 2)) ∧
  (p.alive = 0 → q.alive = 0) ∧
  (q.alive ≠ p.alive → q.alive = 0 ∧ p.state = 1 ∧ q.state = 1)

/-- The counter is used by the infected and kept by the recovered. -/
def Timed (p : Person) : Prop :=
  (p.state = 0 ∨ p.state = 1 ∨ p.state = 2) ∧ (p.state = 0 → p.infection_time = 0)

/-- Position and velocity of a record of the source configuration: at most one
step outside the window, and heading back when outside. -/
def Boxed (p : Person) : Prop :=
  (-2 ≤ p.x ∧ p.x ≤ 802 ∧ (p.dx = -2 ∨ p.dx = 0 ∨ p.dx = 2) ∧
    (p.x < 0 → 0 ≤ p.dx) ∧ (800 < p.x → p.dx ≤ 0)) ∧
  (-(9 / 2) ≤ p.y ∧ p.y ≤ 1209 / 2 ∧ (p.dy = -(9 / 2) ∨ p.dy = 0 ∨ p.dy = 9 / 2) ∧
    (p.y < 0 → 0 ≤ p.dy) ∧ (600 < p.y → p.dy ≤ 0))

/-- The counter of a record stays between `0` and `RECOVERY_TIME`. -/
def Counted (cfg : Config) (p : Person) : Prop :=
  0 ≤ p.infection_time ∧ p.infection_time ≤ cfg.RECOVERY_TIME ∧
  (p.state = 1 → p.alive ≠ 0 → p.infection_time < cfg.RECOVERY_TIME)

/-- A record the inner loop may infect: susceptible and alive (line 76). -/
def Exposed (p : Person) : Prop :=
  p.state = 0 ∧ p.alive ≠ 0

/-- The simulation when the inner loop of person `i` starts: the iterations of
the smaller indices are done and lines 53-71 have run on person `i`. -/
def spread_start (cfg : Config) (draws : Nat → ℚ) (s : Sim) (i : Nat) : Sim :=
  { people := setPerson (before_person cfg draws s i).people i
      (advance cfg draws ((before_person cfg draws s i).people i)
        (before_person cfg draws s i).next).1,
    next := (advance cfg draws ((before_person cfg draws s i).people i)
        (before_person cfg draws s i).next).2 }

/-- The simulation just before the inner loop body of the pair `(i, j)`. -/
def before_pair (cfg : Config) (draws : Nat → ℚ) (s : Sim) (i j : Nat) : Sim :=
  (List.range j).foldl (infect_step cfg draws i) (spread_start cfg draws s i)

/-! ## Concrete populations and configurations -/

/-- A zeroed record, for the memory outside the population. -/
def blank : Person :=
  { x := 0, y := 0, dx := 0, dy := 0, state := 0, infection_time := 0, alive := 0 }

/-- A person at rest at `(x, y)`, alive, with the given state and counter. -/
def resting (x y : ℚ) (state infection_time : Int) : Person :=
  { x := x, y := y, dx := 0, dy := 0, state := state,
    infection_time := infection_time, alive := 1 }

/-- The source configuration with two persons and `BETA = 1.0`. -/
def pairConfig : Config :=
  { sourceConfig with POPULATION := 2, BETA := 1 }

/-- The source configuration with `RECOVERY_TIME = 1`. -/
def quickConfig : Config :=
  { sourceConfig with RECOVERY_TIME := 1 }

/-- The source configuration with one person. -/
def singleConfig : Config :=
  { sourceConfig with POPULATION := 1 }

/-- The source configuration with `BETA = 1.0` and an infinite radius. -/
def certainConfig : Config :=
  { sourceConfig with BETA := 1, INFECTION_RADIUS := Radius.unbounded }

/-- Two persons at rest: person 0 infected at `(0, 0)`, person 1 susceptible at
`(5, 0)`. -/
def pairSim : Sim :=
  { people := fun k =>
      if k = 0 then resting 0 0 1 0 else if k = 1 then resting 5 0 0 0 else blank,
    next := 0 }

/-- Fifty persons at rest: person 0 infected at `(0, 0)` with counter `t`,
person 1 susceptible at `(5, 0)`, the others susceptible at `(400, 300)`. -/
def crowd (t : Int) : Sim :=
  { people := fun k =>
      if k = 0 then resting 0 0 1 t else if k = 1 then resting 5 0 0 0
      else if k < 50 then resting 400 300 0 0 else blank,
    next := 0 }

/-- Fifty persons: person 0 infected at rest at `(0, 0)`, person 1 susceptible
at `(9, 0)` moving right by `2` a tick, the others susceptible at rest at
`(400, 300)`. -/
def approach : Sim :=
  { people := fun k =>
      if k = 0 then resting 0 0 1 0
      else if k = 1 then
        { x := 9, y := 0, dx := 2, dy := 0, state := 0, infection_time := 0, alive := 1 }
      else if k < 50 then resting 400 300 0 0 else blank,
    next := 0 }

/-- One susceptible person on the right bound `x = WINDOW_WIDTH`, moving right
by `2` a tick. -/
def edge : Sim :=
  { people := fun k =>
      if k = 0 then
        { x := 800, y := 300, dx := 2, dy := 0, state := 0, infection_time := 0, alive := 1 }
      else blank,
    next := 0 }

/-- Every draw `(float)rand() / RAND_MAX` has the value `v`. -/
def constant_draws (v : ℚ) : Nat → ℚ :=
  fun _ => v

/-- Every call of `rand()` returns `0`. -/
def zero_rand : Nat → Nat :=
  fun _ => 0


/-! ## Lemmas -/

/-! ## What one loop iteration does to one record -/

@[simp] theorem infected_state (p : Person) : (infected p).state = 1 := rfl
@[simp] theorem infected_time (p : Person) : (infected p).infection_time = 0 := rfl
@[simp] theorem infected_alive (p : Person) : (infected p).alive = p.alive := rfl
@[simp] theorem infected_x (p : Person) : (infected p).x = p.x := rfl
@[simp] theorem infected_y (p : Person) : (infected p).y = p.y := rfl
@[simp] theorem infected_dx (p : Person) : (infected p).dx = p.dx := rfl
@[simp] theorem infected_dy (p : Person) : (infected p).dy = p.dy := rfl

theorem Touched.refl (p : Person) : Touched p p := Or.inl rfl

theorem Touched.trans {p q r : Person} (h1 : Touched p q) (h2 : Touched q r) :
    Touched p r := by
  rcases h1 with rfl | ⟨hs, ha, rfl⟩
  · exact h2
  · rcases h2 with rfl | ⟨hs2, _, _⟩
    · exact Or.inr ⟨hs, ha, rfl⟩
    · simp [infected] at hs2

theorem Touched.eq_of_state {p q : Person} (h : Touched p q) (hs : p.state ≠ 0) :
    q = p := by
  rcases h with rfl | ⟨hs2, _, _⟩
  · rfl
  · exact absurd hs2 hs

theorem Touched.eq_of_dead {p q : Person} (h : Touched p q) (hs : p.alive = 0) :
    q = p := by
  rcases h with rfl | ⟨_, ha, _⟩
  · rfl
  · exact absurd hs ha

theorem setPerson_same (people : Nat → Person) (j : Nat) (p : Person) :
    setPerson people j p j = p := by
  simp [setPerson]

theorem setPerson_other (people : Nat → Person) {j k : Nat} (p : Person) (h : k ≠ j) :
    setPerson people j p k = people k := by
  simp [setPerson, h]

theorem infect_step_people (cfg : Config) (draws : Nat → ℚ) (i : Nat) (s : Sim)
    (j k : Nat) : Touched (s.people k) ((infect_step cfg draws i s j).people k) := by
  unfold infect_step
  split_ifs with h1 h2 h3
  · by_cases hk : k = j
    · subst hk
      simp only [setPerson_same]
      exact Or.inr ⟨h1.1, h1.2, rfl⟩
    · simp only [setPerson_other _ _ hk]
      exact Touched.refl _
  all_goals exact Touched.refl _

theorem foldl_infect_people (cfg : Config) (draws : Nat → ℚ) (i k : Nat) (l : List Nat) :
    ∀ s : Sim, Touched (s.people k) ((l.foldl (infect_step cfg draws i) s).people k) := by
  induction l with
  | nil => intro s; exact Touched.refl _
  | cons j l ih =>
    intro s
    simp only [List.foldl_cons]
    exact (infect_step_people cfg draws i s j k).trans (ih _)

theorem spread_people (cfg : Config) (draws : Nat → ℚ) (i : Nat) (s : Sim) (k : Nat) :
    Touched (s.people k) ((spread cfg draws i s).people k) := by
  unfold spread
  split_ifs
  · exact foldl_infect_people cfg draws i k _ s
  · exact Touched.refl _

@[simp] theorem move_x (p : Person) : (move p).x = p.x + p.dx := rfl
@[simp] theorem move_y (p : Person) : (move p).y = p.y + p.dy := rfl
@[simp] theorem move_dx (p : Person) : (move p).dx = p.dx := rfl
@[simp] theorem move_dy (p : Person) : (move p).dy = p.dy := rfl
@[simp] theorem move_state (p : Person) : (move p).state = p.state := rfl
@[simp] theorem move_time (p : Person) : (move p).infection_time = p.infection_time := rfl
@[simp] theorem move_alive (p : Person) : (move p).alive = p.alive := rfl

@[simp] theorem reflect_x (cfg : Config) (p : Person) : (reflect cfg p).x = p.x := by
  unfold reflect reflect_dy reflect_dx; split_ifs <;> rfl
@[simp] theorem reflect_y (cfg : Config) (p : Person) : (reflect cfg p).y = p.y := by
  unfold reflect reflect_dy reflect_dx; split_ifs <;> rfl
@[simp] theorem reflect_state (cfg : Config) (p : Person) :
    (reflect cfg p).state = p.state := by
  unfold reflect reflect_dy reflect_dx; split_ifs <;> rfl
@[simp] theorem reflect_time (cfg : Config) (p : Person) :
    (reflect cfg p).infection_time = p.infection_time := by
  unfold reflect reflect_dy reflect_dx; split_ifs <;> rfl
@[simp] theorem reflect_alive (cfg : Config) (p : Person) :
    (reflect cfg p).alive = p.alive := by
  unfold reflect reflect_dy reflect_dx; split_ifs <;> rfl
theorem reflect_vx (cfg : Config) (p : Person) :
    (reflect cfg p).dx =
      if p.x ≤ 0 ∨ p.x ≥ (cfg.WINDOW_WIDTH : ℚ) then -p.dx else p.dx := by
  unfold reflect reflect_dy reflect_dx; split_ifs <;> simp
theorem reflect_vy (cfg : Config) (p : Person) :
    (reflect cfg p).dy =
      if p.y ≤ 0 ∨ p.y ≥ (cfg.WINDOW_HEIGHT : ℚ) then -p.dy else p.dy := by
  unfold reflect reflect_dy reflect_dx; split_ifs <;> simp_all

@[simp] theorem progress_x (cfg : Config) (draws : Nat → ℚ) (p : Person) (k : Nat) :
    (progress cfg draws p k).1.x = p.x := by
  unfold progress; dsimp only; split_ifs <;> rfl
@[simp] theorem progress_y (cfg : Config) (draws : Nat → ℚ) (p : Person) (k : Nat) :
    (progress cfg draws p k).1.y = p.y := by
  unfold progress; dsimp only; split_ifs <;> rfl
@[simp] theorem progress_dx (cfg : Config) (draws : Nat → ℚ) (p : Person) (k : Nat) :
    (progress cfg draws p k).1.dx = p.dx := by
  unfold progress; dsimp only; split_ifs <;> rfl
@[simp] theorem progress_dy (cfg : Config) (draws : Nat → ℚ) (p : Person) (k : Nat) :
    (progress cfg draws p k).1.dy = p.dy := by
  unfold progress; dsimp only; split_ifs <;> rfl

/-- The three outcomes of the progression of a record. -/
theorem progress_cases (cfg : Config) (draws : Nat → ℚ) (p : Person) (k : Nat) :
    (p.state ≠ 1 ∧ progress cfg draws p k = (p, k)) ∨
    (p.state = 1 ∧ p.infection_time + 1 < cfg.RECOVERY_TIME ∧
      progress cfg draws p k = ({ p with infection_time := p.infection_time + 1 }, k)) ∨
    (p.state = 1 ∧ cfg.RECOVERY_TIME ≤ p.infection_time + 1 ∧ draws k < 1 / 2 ∧
      progress cfg draws p k =
        ({ p with infection_time := p.infection_time + 1, alive := 0 }, k + 1)) ∨
    (p.state = 1 ∧ cfg.RECOVERY_TIME ≤ p.infection_time + 1 ∧ ¬ draws k < 1 / 2 ∧
      progress cfg draws p k =
        ({ p with infection_time := p.infection_time + 1, state := 2 }, k + 1)) := by
  unfold progress
  by_cases h1 : p.state = 1
  · by_cases h2 : cfg.RECOVERY_TIME ≤ p.infection_time + 1
    · by_cases h3 : draws k < 1 / 2
      · right; right; left
        refine ⟨h1, h2, h3, ?_⟩
        simp only [if_pos h1, ge_iff_le, if_pos h2, if_pos h3]
      · right; right; right
        refine ⟨h1, h2, h3, ?_⟩
        simp only [if_pos h1, ge_iff_le, if_pos h2, if_neg h3]
    · right; left
      refine ⟨h1, by omega, ?_⟩
      simp only [if_pos h1, ge_iff_le, if_neg h2]
  · left
    refine ⟨h1, ?_⟩
    simp only [if_neg h1]

theorem advance_state_ne_zero (cfg : Config) (draws : Nat → ℚ) (p : Person) (k : Nat)
    (h : p.state ≠ 0) : (advance cfg draws p k).1.state ≠ 0 := by
  unfold advance
  rcases progress_cases cfg draws (reflect cfg (move p)) k with
    ⟨_, e⟩ | ⟨_, _, e⟩ | ⟨h1, _, _, e⟩ | ⟨_, _, _, e⟩ <;> rw [e] <;> simp_all

theorem person_step_other (cfg : Config) (draws : Nat → ℚ) (s : Sim) {i k : Nat}
    (h : k ≠ i) : Touched (s.people k) ((person_step cfg draws s i).people k) := by
  unfold person_step
  split_ifs
  · exact Touched.refl _
  · have := spread_people cfg draws i
      { people := setPerson s.people i (advance cfg draws (s.people i) s.next).1,
        next := (advance cfg draws (s.people i) s.next).2 } k
    simpa [setPerson_other _ _ h] using this

theorem person_step_self (cfg : Config) (draws : Nat → ℚ) (s : Sim) (i : Nat) :
    (person_step cfg draws s i).people i = own cfg draws (s.people i) s.next := by
  unfold person_step own
  split_ifs with h
  · rfl
  · simp only
    unfold spread
    split_ifs with h1
    · have := foldl_infect_people cfg draws i i (List.range cfg.POPULATION)
        { people := setPerson s.people i (advance cfg draws (s.people i) s.next).1,
          next := (advance cfg draws (s.people i) s.next).2 }
      simp only [setPerson_same] at this h1
      exact this.eq_of_state (by rw [h1]; decide)
    · simp [setPerson_same]

theorem foldl_person_other (cfg : Config) (draws : Nat → ℚ) (k : Nat) (l : List Nat)
    (h : k ∉ l) :
    ∀ s : Sim, Touched (s.people k) ((l.foldl (person_step cfg draws) s).people k) := by
  induction l with
  | nil => intro s; exact Touched.refl _
  | cons j l ih =>
    intro s
    simp only [List.foldl_cons]
    have hj : k ≠ j := fun e => h (by simp [e])
    have hl : k ∉ l := fun e => h (by simp [e])
    exact (person_step_other cfg draws s hj).trans (ih hl _)

theorem range_split {k n : Nat} (h : k < n) :
    List.range n = List.range k ++ k :: List.range' (k + 1) (n - (k + 1)) := by
  have h1 : n = k + ((n - (k + 1)) + 1) := by omega
  have h2 : List.range' 0 (k + ((n - (k + 1)) + 1)) =
      List.range' 0 k ++ List.range' (0 + 1 * k) ((n - (k + 1)) + 1) := by
    rw [List.range'_append, Nat.add_comm]
  conv_lhs => rw [h1]
  rw [List.range_eq_range', List.range_eq_range', h2, List.range'_succ]
  simp

/-- The loop over the indices below `n`, seen from person `k`: the iterations
before its own touch the record, its own iteration advances it, the later
ones touch it again. -/
theorem foldl_range_self (cfg : Config) (draws : Nat → ℚ) (s : Sim) {k n : Nat}
    (h : k < n) :
    Touched (s.people k) ((before_person cfg draws s k).people k) ∧
    Touched (own cfg draws ((before_person cfg draws s k).people k)
        (before_person cfg draws s k).next)
      (((List.range n).foldl (person_step cfg draws) s).people k) := by
  constructor
  · exact foldl_person_other cfg draws k _ (by simp) s
  · rw [range_split h, List.foldl_append, List.foldl_cons, ← person_step_self]
    exact foldl_person_other cfg draws k _ (by simp) _

theorem advance_x (cfg : Config) (draws : Nat → ℚ) (p : Person) (k : Nat) :
    (advance cfg draws p k).1.x = p.x + p.dx := by
  simp [advance]

theorem advance_y (cfg : Config) (draws : Nat → ℚ) (p : Person) (k : Nat) :
    (advance cfg draws p k).1.y = p.y + p.dy := by
  simp [advance]

theorem advance_dx (cfg : Config) (draws : Nat → ℚ) (p : Person) (k : Nat) :
    (advance cfg draws p k).1.dx =
      if p.x + p.dx ≤ 0 ∨ p.x + p.dx ≥ (cfg.WINDOW_WIDTH : ℚ) then -p.dx else p.dx := by
  simp [advance, reflect_vx]

theorem advance_dy (cfg : Config) (draws : Nat → ℚ) (p : Person) (k : Nat) :
    (advance cfg draws p k).1.dy =
      if p.y + p.dy ≤ 0 ∨ p.y + p.dy ≥ (cfg.WINDOW_HEIGHT : ℚ) then -p.dy else p.dy := by
  simp [advance, reflect_vy]

/-- State, counter and alive flag after lines 53-71, by the four paths of the
progression. -/
theorem advance_health (cfg : Config) (draws : Nat → ℚ) (p : Person) (k : Nat) :
    (p.state ≠ 1 ∧ (advance cfg draws p k).1.state = p.state ∧
      (advance cfg draws p k).1.infection_time = p.infection_time ∧
      (advance cfg draws p k).1.alive = p.alive ∧ (advance cfg draws p k).2 = k) ∨
    (p.state = 1 ∧ p.infection_time + 1 < cfg.RECOVERY_TIME ∧
      (advance cfg draws p k).1.state = 1 ∧
      (advance cfg draws p k).1.infection_time = p.infection_time + 1 ∧
      (advance cfg draws p k).1.alive = p.alive ∧ (advance cfg draws p k).2 = k) ∨
    (p.state = 1 ∧ cfg.RECOVERY_TIME ≤ p.infection_time + 1 ∧ draws k < 1 / 2 ∧
      (advance cfg draws p k).1.state = 1 ∧
      (advance cfg draws p k).1.infection_time = p.infection_time + 1 ∧
      (advance cfg draws p k).1.alive = 0 ∧ (advance cfg draws p k).2 = k + 1) ∨
    (p.state = 1 ∧ cfg.RECOVERY_TIME ≤ p.infection_time + 1 ∧ ¬ draws k < 1 / 2 ∧
      (advance cfg draws p k).1.state = 2 ∧
      (advance cfg draws p k).1.infection_time = p.infection_time + 1 ∧
      (advance cfg draws p k).1.alive = p.alive ∧ (advance cfg draws p k).2 = k + 1) := by
  unfold advance
  rcases progress_cases cfg draws (reflect cfg (move p)) k with
    ⟨h, e⟩ | ⟨h, h2, e⟩ | ⟨h, h2, h3, e⟩ | ⟨h, h2, h3, e⟩
  all_goals simp only [reflect_state, move_state, reflect_time, move_time] at h
  · left; rw [e]
    refine ⟨h, ?_, ?_, ?_, ?_⟩ <;> simp
  · simp only [reflect_state, move_state, reflect_time, move_time] at h2
    right; left; rw [e]
    refine ⟨h, h2, ?_, ?_, ?_, ?_⟩ <;> simp [h]
  · simp only [reflect_state, move_state, reflect_time, move_time] at h2
    right; right; left; rw [e]
    refine ⟨h, h2, h3, ?_, ?_, ?_, ?_⟩ <;> simp [h]
  · simp only [reflect_state, move_state, reflect_time, move_time] at h2
    right; right; right; rw [e]
    refine ⟨h, h2, h3, ?_, ?_, ?_, ?_⟩ <;> simp

theorem run_succ_end (cfg : Config) (draws : Nat → ℚ) (t : Nat) :
    ∀ s : Sim, run cfg draws (t + 1) s = update_population cfg draws (run cfg draws t s) := by
  induction t with
  | zero => intro s; rfl
  | succ t ih =>
    intro s
    show run cfg draws (t + 1) (update_population cfg draws s) = _
    rw [ih]
    rfl

/-- One tick seen from one record: touched by the persons of smaller index,
advanced by its own iteration, touched by the persons of larger index. -/
theorem update_person (cfg : Config) (draws : Nat → ℚ) (s : Sim) {k : Nat}
    (h : k < cfg.POPULATION) :
    Touched (s.people k) ((before_person cfg draws s k).people k) ∧
    Touched (own cfg draws ((before_person cfg draws s k).people k)
        (before_person cfg draws s k).next)
      ((update_population cfg draws s).people k) :=
  foldl_range_self cfg draws s h

theorem update_outside (cfg : Config) (draws : Nat → ℚ) (s : Sim) {k : Nat}
    (h : ¬ k < cfg.POPULATION) :
    Touched (s.people k) ((update_population cfg draws s).people k) :=
  foldl_person_other cfg draws k _ (by simpa using h) s

theorem Touched.lawful {p q : Person} (h : Touched p q) : Lawful p q := by
  rcases h with rfl | ⟨hs, ha, rfl⟩
  · simp [Lawful]
  · simp [Lawful, infected, hs]

theorem own_lawful_of_touched (cfg : Config) (draws : Nat → ℚ) {p a q : Person} (m : Nat)
    (hRT : 1 < cfg.RECOVERY_TIME) (h1 : Touched p a)
    (h2 : Touched (own cfg draws a m) q) : Lawful p q := by
  unfold own at h2
  by_cases ha : a.alive = 0
  · rw [if_pos ha] at h2
    exact (h1.trans h2).lawful
  · rw [if_neg ha] at h2
    unfold Lawful
    rcases h1 with rfl | ⟨hs, hal, rfl⟩
    · rcases h2 with rfl | ⟨hb0, hb1, rfl⟩
      all_goals
        rcases advance_health cfg draws a m with
          ⟨c1, c2, c3, c4, _⟩ | ⟨c1, c0, c2, c3, c4, _⟩ | ⟨c1, c0, cd, c2, c3, c4, _⟩ |
          ⟨c1, c0, cd, c2, c3, c4, _⟩
        all_goals
          try simp only [infected_state, infected_alive, infected_time] at *
          first | omega | simp_all
    · rcases h2 with rfl | ⟨hb0, hb1, rfl⟩
      all_goals
        rcases advance_health cfg draws (infected p) m with
          ⟨c1, c2, c3, c4, _⟩ | ⟨c1, c0, c2, c3, c4, _⟩ | ⟨c1, c0, cd, c2, c3, c4, _⟩ |
          ⟨c1, c0, cd, c2, c3, c4, _⟩
        all_goals
          try simp only [infected_state, infected_alive, infected_time] at *
          omega

theorem update_lawful (cfg : Config) (draws : Nat → ℚ) (s : Sim) (k : Nat)
    (hRT : 1 < cfg.RECOVERY_TIME) :
    Lawful (s.people k) ((update_population cfg draws s).people k) := by
  by_cases h : k < cfg.POPULATION
  · obtain ⟨h1, h2⟩ := update_person cfg draws s h
    exact own_lawful_of_touched cfg draws _ hRT h1 h2
  · exact (update_outside cfg draws s h).lawful

theorem update_dead (cfg : Config) (draws : Nat → ℚ) (s : Sim) (k : Nat)
    (hd : (s.people k).alive = 0) :
    (update_population cfg draws s).people k = s.people k := by
  by_cases h : k < cfg.POPULATION
  · obtain ⟨h1, h2⟩ := update_person cfg draws s h
    have e1 := h1.eq_of_dead hd
    rw [e1] at h2
    unfold own at h2
    rw [if_pos hd] at h2
    exact h2.eq_of_dead hd
  · exact (update_outside cfg draws s h).eq_of_dead hd

theorem run_dead (cfg : Config) (draws : Nat → ℚ) (k : Nat) (t : Nat) :
    ∀ s : Sim, (s.people k).alive = 0 → (run cfg draws t s).people k = s.people k := by
  induction t with
  | zero => intro s _; rfl
  | succ t ih =>
    intro s hd
    show (run cfg draws t (update_population cfg draws s)).people k = _
    have e := update_dead cfg draws s k hd
    rw [ih _ (by rw [e]; exact hd), e]

theorem run_recovered (cfg : Config) (draws : Nat → ℚ) (k : Nat)
    (hRT : 1 < cfg.RECOVERY_TIME) (t : Nat) :
    ∀ s : Sim, (s.people k).state = 2 → ((run cfg draws t s).people k).state = 2 := by
  induction t with
  | zero => intro s h; exact h
  | succ t ih =>
    intro s hs
    show ((run cfg draws t (update_population cfg draws s)).people k).state = 2
    apply ih
    have := (update_lawful cfg draws s k hRT).1
    omega

theorem Touched.kinematics {p q : Person} (h : Touched p q) :
    q.x = p.x ∧ q.y = p.y ∧ q.dx = p.dx ∧ q.dy = p.dy ∧ q.alive = p.alive := by
  rcases h with rfl | ⟨_, _, rfl⟩ <;> simp

/-- A living person that is not susceptible at the start of a tick ends the
tick as its own iteration leaves it. -/
theorem update_self_of_state (cfg : Config) (draws : Nat → ℚ) (s : Sim) {k : Nat}
    (h : k < cfg.POPULATION) (ha : (s.people k).alive ≠ 0) (hs : (s.people k).state ≠ 0) :
    (update_population cfg draws s).people k =
      (advance cfg draws (s.people k) (before_person cfg draws s k).next).1 := by
  obtain ⟨h1, h2⟩ := update_person cfg draws s h
  rw [h1.eq_of_state hs] at h2
  unfold own at h2
  rw [if_neg ha] at h2
  exact h2.eq_of_state (advance_state_ne_zero cfg draws _ _ hs)

/-- Position and velocity of a living person after one tick. -/
theorem update_kinematics (cfg : Config) (draws : Nat → ℚ) (s : Sim) {k : Nat}
    (h : k < cfg.POPULATION) (ha : (s.people k).alive ≠ 0) :
    ((update_population cfg draws s).people k).x = (s.people k).x + (s.people k).dx ∧
    ((update_population cfg draws s).people k).y = (s.people k).y + (s.people k).dy ∧
    ((update_population cfg draws s).people k).dx =
      (if (s.people k).x + (s.people k).dx ≤ 0 ∨
          (s.people k).x + (s.people k).dx ≥ (cfg.WINDOW_WIDTH : ℚ)
        then -(s.people k).dx else (s.people k).dx) ∧
    ((update_population cfg draws s).people k).dy =
      (if (s.people k).y + (s.people k).dy ≤ 0 ∨
          (s.people k).y + (s.people k).dy ≥ (cfg.WINDOW_HEIGHT : ℚ)
        then -(s.people k).dy else (s.people k).dy) := by
  obtain ⟨h1, h2⟩ := update_person cfg draws s h
  obtain ⟨a1, a2, a3, a4, a5⟩ := h1.kinematics
  obtain ⟨b1, b2, b3, b4, _⟩ := h2.kinematics
  unfold own at b1 b2 b3 b4
  rw [if_neg (by rw [a5]; exact ha)] at b1 b2 b3 b4
  rw [b1, b2, b3, b4, advance_x, advance_y, advance_dx, advance_dy, a1, a2, a3, a4]
  exact ⟨rfl, rfl, rfl, rfl⟩

/-- The counter of a person that turns from susceptible to infected within a
tick: `1` when it was infected before its own iteration, else `0`. -/
theorem update_fresh_counter (cfg : Config) (draws : Nat → ℚ) (s : Sim) {k : Nat}
    (h : k < cfg.POPULATION) (h0 : (s.people k).state = 0)
    (h1 : ((update_population cfg draws s).people k).state = 1) :
    ((update_population cfg draws s).people k).infection_time =
      if ((before_person cfg draws s k).people k).state = 1 then 1 else 0 := by
  obtain ⟨t1, t2⟩ := update_person cfg draws s h
  rcases t1 with e | ⟨_, hal, e⟩
  · rw [e] at t2 ⊢
    rw [if_neg (by rw [h0]; decide)]
    unfold own at t2
    split_ifs at t2 with hd
    · rcases t2 with e2 | ⟨_, _, e2⟩
      · rw [e2, h0] at h1; exact absurd h1 (by decide)
      · rw [e2]; rfl
    · rcases t2 with e2 | ⟨_, _, e2⟩
      · rcases advance_health cfg draws (s.people k) (before_person cfg draws s k).next with
          ⟨c1, c2, c3, c4, _⟩ | ⟨c1, _⟩ | ⟨c1, _⟩ | ⟨c1, _⟩
        · rw [e2, c2, h0] at h1; exact absurd h1 (by decide)
        all_goals rw [h0] at c1; exact absurd c1 (by decide)
      · rw [e2]; rfl
  · rw [e] at t2 ⊢
    rw [if_pos (infected_state _)]
    unfold own at t2
    rw [if_neg (by simpa using hal)] at t2
    have hne := advance_state_ne_zero cfg draws (infected (s.people k))
      (before_person cfg draws s k).next (by simp)
    rw [t2.eq_of_state hne] at h1 ⊢
    rcases advance_health cfg draws (infected (s.people k))
        (before_person cfg draws s k).next with
      ⟨c1, _⟩ | ⟨c1, c0, c2, c3, c4, _⟩ | ⟨c1, c0, cd, c2, c3, c4, _⟩ |
      ⟨c1, c0, cd, c2, c3, c4, _⟩
    · simp at c1
    · simpa using c3
    · simpa using c3
    · rw [c2] at h1; exact absurd h1 (by decide)

/-! ## Invariants of the reachable populations -/

theorem update_preserves (cfg : Config) (draws : Nat → ℚ) (P : Person → Prop)
    (hinf : ∀ p, P p → p.state = 0 → p.alive ≠ 0 → P (infected p))
    (hadv : ∀ p m, P p → p.alive ≠ 0 → P (advance cfg draws p m).1)
    (s : Sim) (k : Nat) (hP : P (s.people k)) :
    P ((update_population cfg draws s).people k) := by
  have touch : ∀ {p q : Person}, Touched p q → P p → P q := by
    intro p q h hp
    rcases h with rfl | ⟨h0, h1, rfl⟩
    · exact hp
    · exact hinf p hp h0 h1
  by_cases h : k < cfg.POPULATION
  · obtain ⟨h1, h2⟩ := update_person cfg draws s h
    refine touch h2 ?_
    unfold own
    split_ifs with hd
    · exact touch h1 hP
    · exact hadv _ _ (touch h1 hP) hd
  · exact touch (update_outside cfg draws s h) hP

theorem run_preserves (cfg : Config) (draws : Nat → ℚ) (P : Person → Prop)
    (hinf : ∀ p, P p → p.state = 0 → p.alive ≠ 0 → P (infected p))
    (hadv : ∀ p m, P p → p.alive ≠ 0 → P (advance cfg draws p m).1)
    (k : Nat) (t : Nat) :
    ∀ s : Sim, P (s.people k) → P ((run cfg draws t s).people k) := by
  induction t with
  | zero => intro s h; exact h
  | succ t ih =>
    intro s hP
    exact ih _ (update_preserves cfg draws P hinf hadv s k hP)

theorem foldl_initialise (cfg : Config) (rand : Nat → Nat) (mem : Nat → Person) (n : Nat) :
    ∀ i, i < n →
      (List.range n).foldl (initialise_person cfg rand) mem i = fresh_person cfg rand i := by
  induction n with
  | zero => intro i h; exact absurd h (Nat.not_lt_zero i)
  | succ n ih =>
    intro i h
    rw [List.range_succ, List.foldl_append]
    simp only [List.foldl_cons, List.foldl_nil, initialise_person]
    by_cases e : i = n
    · rw [e, setPerson_same]
    · rw [setPerson_other _ _ e]
      exact ih i (by omega)

/-- The population `initialise_population` builds: fresh records, the one at
index 0 infected. -/
theorem initialise_population_person (cfg : Config) (rand : Nat → Nat)
    (mem : Nat → Person) {i : Nat} (h : i < cfg.POPULATION) :
    initialise_population cfg rand mem i =
      if i = 0 then { fresh_person cfg rand 0 with state := 1 } else fresh_person cfg rand i := by
  unfold initialise_population
  simp only
  by_cases e : i = 0
  · subst e
    rw [if_pos rfl, setPerson_same, foldl_initialise cfg rand mem _ 0 h]
  · rw [if_neg e, setPerson_other _ _ e, foldl_initialise cfg rand mem _ i h]

theorem timed_infected (p : Person) (_ : Timed p) : Timed (infected p) := by
  simp [Timed]

theorem timed_advance (cfg : Config) (draws : Nat → ℚ) (p : Person) (m : Nat)
    (h : Timed p) : Timed (advance cfg draws p m).1 := by
  unfold Timed at h ⊢
  rcases advance_health cfg draws p m with
    ⟨c1, c2, c3, c4, _⟩ | ⟨c1, c0, c2, c3, c4, _⟩ | ⟨c1, c0, cd, c2, c3, c4, _⟩ |
    ⟨c1, c0, cd, c2, c3, c4, _⟩
  all_goals
    rw [c2, c3]
    omega

theorem timed_initial (cfg : Config) (rand : Nat → Nat) (mem : Nat → Person) {i : Nat}
    (h : i < cfg.POPULATION) : Timed ((initial cfg rand mem).people i) := by
  show Timed (initialise_population cfg rand mem i)
  rw [initialise_population_person cfg rand mem h]
  split_ifs <;> simp [Timed, fresh_person]

theorem timed_reachable (cfg : Config) (rand : Nat → Nat) (mem : Nat → Person)
    (draws : Nat → ℚ) (t : Nat) {i : Nat} (h : i < cfg.POPULATION) :
    Timed ((run cfg draws t (initial cfg rand mem)).people i) :=
  run_preserves cfg draws Timed (fun p hp _ _ => timed_infected p hp)
    (fun p m hp _ => timed_advance cfg draws p m hp) i t _ (timed_initial cfg rand mem h)

/-- One axis of the movement with reflection keeps the invariant of `Boxed`. -/
theorem axis_step (w v x d : ℚ) (hv : 0 < v)
    (h : -v ≤ x ∧ x ≤ w + v ∧ (d = -v ∨ d = 0 ∨ d = v) ∧ (x < 0 → 0 ≤ d) ∧ (w < x → d ≤ 0)) :
    -v ≤ x + d ∧ x + d ≤ w + v ∧
    ((if x + d ≤ 0 ∨ x + d ≥ w then -d else d) = -v ∨
      (if x + d ≤ 0 ∨ x + d ≥ w then -d else d) = 0 ∨
      (if x + d ≤ 0 ∨ x + d ≥ w then -d else d) = v) ∧
    (x + d < 0 → 0 ≤ (if x + d ≤ 0 ∨ x + d ≥ w then -d else d)) ∧
    (w < x + d → (if x + d ≤ 0 ∨ x + d ≥ w then -d else d) ≤ 0) := by
  obtain ⟨h1, h2, h3, h4, h5⟩ := h
  rcases h3 with e | e | e
  · subst e
    have h4' : 0 ≤ x := by
      rcases lt_or_le x 0 with c | c
      · have := h4 c; linarith
      · exact c
    refine ⟨by linarith, by linarith, ?_, ?_, ?_⟩
    · split_ifs <;> simp
    · intro hlt
      rw [if_pos (Or.inl (le_of_lt hlt))]
      linarith
    · intro hlt
      linarith
  · subst e
    simp only [add_zero, neg_zero, ite_self]
    exact ⟨h1, h2, Or.inr (Or.inl trivial), fun _ => le_refl _, fun _ => le_refl _⟩
  · subst e
    have h5' : x ≤ w := by
      rcases lt_or_le w x with c | c
      · have := h5 c; linarith
      · exact c
    refine ⟨by linarith, by linarith, ?_, ?_, ?_⟩
    · split_ifs <;> simp
    · intro hlt
      linarith
    · intro hlt
      rw [if_pos (Or.inr (le_of_lt hlt))]
      linarith

theorem boxed_infected (p : Person) (h : Boxed p) : Boxed (infected p) := h

theorem boxed_advance (draws : Nat → ℚ) (p : Person) (m : Nat) (h : Boxed p) :
    Boxed (advance sourceConfig draws p m).1 := by
  unfold Boxed at h ⊢
  rw [advance_x, advance_y, advance_dx, advance_dy]
  have hx := axis_step 800 2 p.x p.dx (by norm_num)
    (by have := h.1; norm_num at this ⊢; exact this)
  have hy := axis_step 600 (9 / 2) p.y p.dy (by norm_num)
    (by have := h.2; norm_num at this ⊢; exact this)
  constructor
  · have e : ((sourceConfig.WINDOW_WIDTH : ℕ) : ℚ) = 800 := by norm_num [sourceConfig]
    rw [e]
    norm_num at hx ⊢
    exact hx
  · have e : ((sourceConfig.WINDOW_HEIGHT : ℕ) : ℚ) = 600 := by norm_num [sourceConfig]
    rw [e]
    norm_num at hy ⊢
    exact hy

theorem boxed_fresh (rand : Nat → Nat) (i : Nat) : Boxed (fresh_person sourceConfig rand i) := by
  have hx : rand (4 * i) % 800 < 800 := Nat.mod_lt _ (by norm_num)
  have hy : rand (4 * i + 1) % 600 < 600 := Nat.mod_lt _ (by norm_num)
  have hx' : ((rand (4 * i) % 800 : ℕ) : ℚ) ≤ 799 := by exact_mod_cast Nat.le_of_lt_succ hx
  have hy' : ((rand (4 * i + 1) % 600 : ℕ) : ℚ) ≤ 599 := by exact_mod_cast Nat.le_of_lt_succ hy
  have hx0 : (0 : ℚ) ≤ ((rand (4 * i) % 800 : ℕ) : ℚ) := Nat.cast_nonneg _
  have hy0 : (0 : ℚ) ≤ ((rand (4 * i + 1) % 600 : ℕ) : ℚ) := Nat.cast_nonneg _
  have hdx : rand (4 * i + 2) % 3 = 0 ∨ rand (4 * i + 2) % 3 = 1 ∨ rand (4 * i + 2) % 3 = 2 := by
    omega
  have hdy : rand (4 * i + 3) % 3 = 0 ∨ rand (4 * i + 3) % 3 = 1 ∨ rand (4 * i + 3) % 3 = 2 := by
    omega
  unfold Boxed fresh_person
  simp only [sourceConfig]
  refine ⟨⟨by linarith, by linarith, ?_, fun c => by linarith, fun c => by linarith⟩,
    ⟨by linarith, by linarith, ?_, fun c => by linarith, fun c => by linarith⟩⟩
  · rcases hdx with e | e | e <;> rw [e] <;> norm_num
  · rcases hdy with e | e | e <;> rw [e] <;> norm_num

theorem boxed_reachable (rand : Nat → Nat) (mem : Nat → Person)
    (draws : Nat → ℚ) (t : Nat) {i : Nat} (h : i < sourceConfig.POPULATION) :
    Boxed ((run sourceConfig draws t (initial sourceConfig rand mem)).people i) := by
  refine run_preserves sourceConfig draws Boxed (fun p hp _ _ => boxed_infected p hp)
    (fun p m hp _ => boxed_advance draws p m hp) i t _ ?_
  show Boxed (initialise_population sourceConfig rand mem i)
  rw [initialise_population_person sourceConfig rand mem h]
  split_ifs
  · exact boxed_fresh rand 0
  · exact boxed_fresh rand i

theorem counted_advance (cfg : Config) (draws : Nat → ℚ) (p : Person) (m : Nat)
    (h : Counted cfg p) (ha : p.alive ≠ 0) : Counted cfg (advance cfg draws p m).1 := by
  unfold Counted at h ⊢
  rcases advance_health cfg draws p m with
    ⟨c1, c2, c3, c4, _⟩ | ⟨c1, c0, c2, c3, c4, _⟩ | ⟨c1, c0, cd, c2, c3, c4, _⟩ |
    ⟨c1, c0, cd, c2, c3, c4, _⟩
  all_goals
    rw [c2, c3, c4]
    omega

/-- In every population reachable from `initialise_population` the counters
lie between `0` and `RECOVERY_TIME`: the increment of line 62 never overflows. -/
theorem reachable_inv (cfg : Config) (hRT : 0 < cfg.RECOVERY_TIME) (rand : Nat → Nat)
    (mem : Nat → Person) (draws : Nat → ℚ) (t : Nat) {i : Nat} (h : i < cfg.POPULATION) :
    Counted cfg ((run cfg draws t (initial cfg rand mem)).people i) := by
  refine run_preserves cfg draws (Counted cfg) ?_
    (fun p m hp ha => counted_advance cfg draws p m hp ha) i t _ ?_
  · intro p _ _ _
    simp only [Counted, infected_time, infected_state, infected_alive]
    omega
  · show Counted cfg (initialise_population cfg rand mem i)
    rw [initialise_population_person cfg rand mem h]
    split_ifs <;> simp only [Counted, fresh_person] <;> omega

/-- An infected living person whose counter stays below `RECOVERY_TIME` for `t`
more ticks is still infected and alive after them, its counter `t` higher. -/
theorem run_incubation (cfg : Config) (draws : Nat → ℚ) {k : Nat}
    (hk : k < cfg.POPULATION) (t : Nat) :
    ∀ s : Sim, (s.people k).state = 1 → (s.people k).alive ≠ 0 →
      (s.people k).infection_time + t < cfg.RECOVERY_TIME →
      ((run cfg draws t s).people k).state = 1 ∧
      ((run cfg draws t s).people k).alive ≠ 0 ∧
      ((run cfg draws t s).people k).infection_time = (s.people k).infection_time + t := by
  induction t with
  | zero => intro s h1 h2 _; exact ⟨h1, h2, by simp [run]⟩
  | succ t ih =>
    intro s h1 h2 h3
    show ((run cfg draws t (update_population cfg draws s)).people k).state = 1 ∧
      ((run cfg draws t (update_population cfg draws s)).people k).alive ≠ 0 ∧
      ((run cfg draws t (update_population cfg draws s)).people k).infection_time = _
    have e := update_self_of_state cfg draws s hk h2 (by rw [h1]; decide)
    rcases advance_health cfg draws (s.people k) (before_person cfg draws s k).next with
      ⟨c1, _⟩ | ⟨c1, c0, c2, c3, c4, _⟩ | ⟨c1, c0, _⟩ | ⟨c1, c0, _⟩
    · exact absurd h1 c1
    · rw [← e] at c2 c3 c4
      obtain ⟨r1, r2, r3⟩ := ih (update_population cfg draws s) c2 (by rw [c4]; exact h2)
        (by rw [c3]; push_cast at h3 ⊢; omega)
      refine ⟨r1, r2, ?_⟩
      rw [r3, c3]
      push_cast
      omega
    · push_cast at h3; omega
    · push_cast at h3; omega

/-- An infected living person whose counter reaches `RECOVERY_TIME` in a tick
whose draws are all at least `1/2` recovers, its counter unreset. -/
theorem update_recovers (cfg : Config) (draws : Nat → ℚ) (hd : ∀ m, ¬ draws m < 1 / 2)
    (s : Sim) {k : Nat} (hk : k < cfg.POPULATION) (h1 : (s.people k).state = 1)
    (h2 : (s.people k).alive ≠ 0)
    (h3 : cfg.RECOVERY_TIME ≤ (s.people k).infection_time + 1) :
    ((update_population cfg draws s).people k).state = 2 ∧
    ((update_population cfg draws s).people k).infection_time =
      (s.people k).infection_time + 1 := by
  rw [update_self_of_state cfg draws s hk h2 (by rw [h1]; decide)]
  rcases advance_health cfg draws (s.people k) (before_person cfg draws s k).next with
    ⟨c1, _⟩ | ⟨c1, c0, _⟩ | ⟨c1, c0, cd, _⟩ | ⟨c1, c0, cd, c2, c3, c4, _⟩
  · exact absurd h1 c1
  · omega
  · exact absurd cd (hd _)
  · exact ⟨c2, c3⟩

/-! ## The spread with certain transmission -/

theorem Touched.not_exposed {p q : Person} (h : Touched p q) (hp : ¬ Exposed p) :
    ¬ Exposed q := by
  rcases h with rfl | ⟨h0, h1, _⟩
  · exact hp
  · exact absurd ⟨h0, h1⟩ hp

theorem infect_step_certain (cfg : Config) (draws : Nat → ℚ)
    (hr : cfg.INFECTION_RADIUS = Radius.unbounded) (hd : ∀ m, draws m < cfg.BETA)
    (i : Nat) (s : Sim) (j : Nat) :
    ¬ Exposed ((infect_step cfg draws i s j).people j) := by
  unfold infect_step
  by_cases h : (s.people j).state = 0 ∧ (s.people j).alive ≠ 0
  · rw [if_pos h, hr]
    simp only [withinRadius, if_true, if_pos (hd s.next), setPerson_same]
    simp [Exposed]
  · rw [if_neg h]
    exact h

theorem foldl_infect_certain (cfg : Config) (draws : Nat → ℚ)
    (hr : cfg.INFECTION_RADIUS = Radius.unbounded) (hd : ∀ m, draws m < cfg.BETA)
    (i : Nat) (l : List Nat) :
    ∀ s : Sim, ∀ j ∈ l, ¬ Exposed ((l.foldl (infect_step cfg draws i) s).people j) := by
  induction l with
  | nil => intro s j hj; simp at hj
  | cons a l ih =>
    intro s j hj
    simp only [List.foldl_cons]
    by_cases hl : j ∈ l
    · exact ih _ j hl
    · have e : j = a := by simpa [hl] using hj
      rw [e]
      exact (foldl_infect_people cfg draws i a l _).not_exposed
        (infect_step_certain cfg draws hr hd i s a)

theorem person_step_not_exposed (cfg : Config) (draws : Nat → ℚ) (s : Sim) (i j : Nat)
    (h : ¬ Exposed (s.people j)) : ¬ Exposed ((person_step cfg draws s i).people j) := by
  by_cases e : j = i
  · rw [e, person_step_self]
    rw [e] at h
    unfold own
    split_ifs with hd
    · exact h
    · intro hx
      apply h
      unfold Exposed at hx ⊢
      rcases advance_health cfg draws (s.people i) s.next with
        ⟨c1, c2, c3, c4, _⟩ | ⟨c1, c0, c2, c3, c4, _⟩ | ⟨c1, c0, cd, c2, c3, c4, _⟩ |
        ⟨c1, c0, cd, c2, c3, c4, _⟩
      all_goals
        rw [c2, c4] at hx
        omega
  · exact (person_step_other cfg draws s e).not_exposed h

theorem foldl_person_not_exposed (cfg : Config) (draws : Nat → ℚ) (j : Nat) (l : List Nat) :
    ∀ s : Sim, ¬ Exposed (s.people j) →
      ¬ Exposed ((l.foldl (person_step cfg draws) s).people j) := by
  induction l with
  | nil => intro s h; exact h
  | cons a l ih =>
    intro s h
    simp only [List.foldl_cons]
    exact ih _ (person_step_not_exposed cfg draws s a j h)

/-- With certain transmission, the iteration of a living person that is
infected after its progression leaves no record of the population exposed. -/
theorem person_step_certain (cfg : Config) (draws : Nat → ℚ)
    (hr : cfg.INFECTION_RADIUS = Radius.unbounded) (hd : ∀ m, draws m < cfg.BETA)
    (s : Sim) (i : Nat) (ha : (s.people i).alive ≠ 0)
    (hs : (advance cfg draws (s.people i) s.next).1.state = 1) {j : Nat}
    (hj : j < cfg.POPULATION) : ¬ Exposed ((person_step cfg draws s i).people j) := by
  unfold person_step
  rw [if_neg ha]
  simp only
  unfold spread
  rw [if_pos (by simp only [setPerson_same]; exact hs)]
  exact foldl_infect_certain cfg draws hr hd i _ _ j (by simpa using hj)

/-- With certain transmission, a tick in which a living infected person is
still infected after its progression leaves no record of the population exposed. -/
theorem update_certain (cfg : Config) (draws : Nat → ℚ)
    (hr : cfg.INFECTION_RADIUS = Radius.unbounded) (hd : ∀ m, draws m < cfg.BETA)
    (s : Sim) {k : Nat} (hk : k < cfg.POPULATION) (h1 : (s.people k).state = 1)
    (h2 : (s.people k).alive ≠ 0)
    (h3 : ((update_population cfg draws s).people k).state = 1) {j : Nat}
    (hj : j < cfg.POPULATION) :
    ¬ Exposed ((update_population cfg draws s).people j) := by
  have hne : (s.people k).state ≠ 0 := by rw [h1]; decide
  rw [update_self_of_state cfg draws s hk h2 hne] at h3
  have hb : (before_person cfg draws s k).people k = s.people k :=
    (foldl_person_other cfg draws k _ (by simp) s).eq_of_state hne
  unfold update_population
  rw [range_split hk, List.foldl_append, List.foldl_cons]
  apply foldl_person_not_exposed
  apply person_step_certain cfg draws hr hd _ k _ _ hj
  · show ((before_person cfg draws s k).people k).alive ≠ 0
    rw [hb]; exact h2
  · show (advance cfg draws ((before_person cfg draws s k).people k)
      (before_person cfg draws s k).next).1.state = 1
    rw [hb]; exact h3

/-! ## The positions the distance test reads -/

/-- When the inner loop of person `i` runs in a tick, `before_pair` is the
simulation the tick passes through before the pair `(i, j)`: the tick is that
pair step, the rest of the inner loop and the rest of the outer loop. -/
theorem update_through_pair (cfg : Config) (draws : Nat → ℚ) (s : Sim) {i j : Nat}
    (hi : i < cfg.POPULATION) (hj : j < cfg.POPULATION)
    (ha : ((before_person cfg draws s i).people i).alive ≠ 0)
    (hs : ((spread_start cfg draws s i).people i).state = 1) :
    update_population cfg draws s =
      (List.range' (i + 1) (cfg.POPULATION - (i + 1))).foldl (person_step cfg draws)
        ((List.range' (j + 1) (cfg.POPULATION - (j + 1))).foldl (infect_step cfg draws i)
          (infect_step cfg draws i (before_pair cfg draws s i j) j)) := by
  have e1 : person_step cfg draws (before_person cfg draws s i) i =
      (List.range cfg.POPULATION).foldl (infect_step cfg draws i)
        (spread_start cfg draws s i) := by
    unfold person_step
    rw [if_neg ha]
    show spread cfg draws i (spread_start cfg draws s i) = _
    unfold spread
    rw [if_pos hs]
  unfold update_population
  rw [range_split hi, List.foldl_append, List.foldl_cons]
  show List.foldl (person_step cfg draws)
    (person_step cfg draws (before_person cfg draws s i) i) _ = _
  rw [e1, range_split hj, List.foldl_append, List.foldl_cons]
  rfl

theorem withinRadius_congr (r : Radius) {a b a2 b2 : Person} (hax : a.x = a2.x)
    (hay : a.y = a2.y) (hbx : b.x = b2.x) (hby : b.y = b2.y) :
    withinRadius r a b = withinRadius r a2 b2 := by
  unfold withinRadius
  rw [hax, hay, hbx, hby]

/-- The pair step infects only through the three tests of lines 76 and 79. -/
theorem infect_step_infects (cfg : Config) (draws : Nat → ℚ) (i : Nat) (s : Sim) (j : Nat)
    (h0 : (s.people j).state = 0) (h1 : ((infect_step cfg draws i s j).people j).state = 1) :
    (s.people j).alive ≠ 0 ∧
    withinRadius cfg.INFECTION_RADIUS (s.people i) (s.people j) = true ∧
    draws s.next < cfg.BETA := by
  unfold infect_step at h1
  split_ifs at h1 with c1 c2 c3
  · exact ⟨c1.2, c2, c3⟩
  all_goals
    try simp only at h1
    rw [h0] at h1
    exact absurd h1 (by decide)

/-- Position of person `i` when its inner loop runs: moved in this tick. -/
theorem before_pair_self (cfg : Config) (draws : Nat → ℚ) (s : Sim) (i j : Nat) :
    ((before_pair cfg draws s i j).people i).x = (move (s.people i)).x ∧
    ((before_pair cfg draws s i j).people i).y = (move (s.people i)).y := by
  have t1 := foldl_infect_people cfg draws i i (List.range j) (spread_start cfg draws s i)
  have t2 : Touched (s.people i) ((before_person cfg draws s i).people i) :=
    foldl_person_other cfg draws i _ (by simp) s
  obtain ⟨a1, a2, _⟩ := t1.kinematics
  obtain ⟨b1, b2, b3, b4, _⟩ := t2.kinematics
  have e : (spread_start cfg draws s i).people i =
      (advance cfg draws ((before_person cfg draws s i).people i)
        (before_person cfg draws s i).next).1 := by
    simp only [spread_start, setPerson_same]
  constructor
  · show ((before_pair cfg draws s i j).people i).x = (s.people i).x + (s.people i).dx
    unfold before_pair
    rw [a1, e, advance_x, b1, b3]
  · show ((before_pair cfg draws s i j).people i).y = (s.people i).y + (s.people i).dy
    unfold before_pair
    rw [a2, e, advance_y, b2, b4]

/-- Position of a living person `j` when the inner loop of another person `i`
runs: moved in this tick when `j < i`, not yet moved when `i < j`. -/
theorem before_pair_other (cfg : Config) (draws : Nat → ℚ) (s : Sim) {i j : Nat} (m : Nat)
    (hij : j ≠ i) (ha : ((before_pair cfg draws s i m).people j).alive ≠ 0) :
    ((before_pair cfg draws s i m).people j).x =
      (if j < i then move (s.people j) else s.people j).x ∧
    ((before_pair cfg draws s i m).people j).y =
      (if j < i then move (s.people j) else s.people j).y := by
  have t1 := foldl_infect_people cfg draws i j (List.range m) (spread_start cfg draws s i)
  have e : (spread_start cfg draws s i).people j = (before_person cfg draws s i).people j := by
    simp only [spread_start, setPerson_other _ _ hij]
  rw [e] at t1
  obtain ⟨a1, a2, _, _, a5⟩ := t1.kinematics
  have ha2 : ((before_person cfg draws s i).people j).alive ≠ 0 := by
    rw [← a5]; exact ha
  unfold before_pair
  rw [a1, a2]
  by_cases hlt : j < i
  · rw [if_pos hlt]
    obtain ⟨t2, t3⟩ := foldl_range_self cfg draws s hlt
    obtain ⟨b1, b2, b3, b4, _⟩ := t2.kinematics
    obtain ⟨c1, c2, _, _, c5⟩ := t3.kinematics
    have hal : ((before_person cfg draws s j).people j).alive ≠ 0 := by
      intro h0
      apply ha2
      show ((List.foldl (person_step cfg draws) s (List.range i)).people j).alive = 0
      rw [c5]
      unfold own
      rw [if_pos h0]
      exact h0
    unfold own at c1 c2
    rw [if_neg hal] at c1 c2
    constructor
    · show ((List.foldl (person_step cfg draws) s (List.range i)).people j).x = _
      rw [c1, advance_x, b1, b3]; rfl
    · show ((List.foldl (person_step cfg draws) s (List.range i)).people j).y = _
      rw [c2, advance_y, b2, b4]; rfl
  · rw [if_neg hlt]
    have t2 : Touched (s.people j) ((before_person cfg draws s i).people j) :=
      foldl_person_other cfg draws j _ (by simp; omega) s
    obtain ⟨b1, b2, _⟩ := t2.kinematics
    exact ⟨b1, b2⟩

/-- When the inner loop of person `i` runs in a tick and its step for the pair
`(i, j)` turns the Susceptible person `j` Infected, then `j` is another person
and alive, the draw of the pair is below `BETA`, and the distance test holds
between the position of `i` after its movement of this tick and the position
of `j` as the array holds it then. -/
theorem pair_step_positions (cfg : Config) (draws : Nat → ℚ) (s : Sim) (i j : Nat)
    (h0 : ((before_pair cfg draws s i j).people j).state = 0)
    (hs : ((spread_start cfg draws s i).people i).state = 1)
    (h1 : ((infect_step cfg draws i (before_pair cfg draws s i j) j).people j).state = 1) :
    j ≠ i ∧ ((before_pair cfg draws s i j).people j).alive ≠ 0 ∧
    draws (before_pair cfg draws s i j).next < cfg.BETA ∧
    withinRadius cfg.INFECTION_RADIUS (move (s.people i))
      (if j < i then move (s.people j) else s.people j) = true := by
  obtain ⟨ha, hw, hd⟩ := infect_step_infects cfg draws i _ j h0 h1
  have hne : j ≠ i := by
    intro e
    subst e
    have t := foldl_infect_people cfg draws j j (List.range j) (spread_start cfg draws s j)
    have e2 := t.eq_of_state (by rw [hs]; decide)
    unfold before_pair at h0
    rw [e2, hs] at h0
    exact absurd h0 (by decide)
  refine ⟨hne, ha, hd, ?_⟩
  obtain ⟨a1, a2⟩ := before_pair_self cfg draws s i j
  obtain ⟨b1, b2⟩ := before_pair_other cfg draws s j hne ha
  rw [← withinRadius_congr cfg.INFECTION_RADIUS a1 a2 b1 b2]
  exact hw

/-- The first iteration of a loop over the indices below `n` after which a
property of the simulation is lost. -/
theorem foldl_range_first (f : Sim → Nat → Sim) (P : Sim → Prop) (s : Sim) (n : Nat)
    (h0 : P s) (h1 : ¬ P ((List.range n).foldl f s)) :
    ∃ k, k < n ∧ P ((List.range k).foldl f s) ∧ ¬ P (f ((List.range k).foldl f s) k) := by
  induction n with
  | zero => exact absurd h0 h1
  | succ n ih =>
    rw [List.range_succ, List.foldl_append] at h1
    simp only [List.foldl_cons, List.foldl_nil] at h1
    by_cases hp : P ((List.range n).foldl f s)
    · exact ⟨n, Nat.lt_succ_self n, hp, h1⟩
    · obtain ⟨k, hk, c1, c2⟩ := ih hp
      exact ⟨k, Nat.lt_succ_of_lt hk, c1, c2⟩

theorem infect_step_other (cfg : Config) (draws : Nat → ℚ) (i : Nat) (s : Sim) {j k : Nat}
    (h : k ≠ j) : (infect_step cfg draws i s j).people k = s.people k := by
  unfold infect_step
  split_ifs
  · exact setPerson_other _ _ h
  all_goals rfl

/-- A person Susceptible before a tick and Infected after it was infected by
one pair step of the tick: the inner loop of a living person `i`, Infected
after its progression, ran, and its step for the pair `(i, j)` infected `j`. -/
theorem update_infector (cfg : Config) (draws : Nat → ℚ) (s : Sim) (j : Nat)
    (h0 : (s.people j).state = 0)
    (h1 : ((update_population cfg draws s).people j).state = 1) :
    ∃ i, i < cfg.POPULATION ∧ j < cfg.POPULATION ∧ j ≠ i ∧
      ((before_person cfg draws s i).people i).alive ≠ 0 ∧
      ((spread_start cfg draws s i).people i).state = 1 ∧
      ((before_pair cfg draws s i j).people j).state = 0 ∧
      ((infect_step cfg draws i (before_pair cfg draws s i j) j).people j).state = 1 := by
  have hend : ¬ (((List.range cfg.POPULATION).foldl (person_step cfg draws) s).people j).state
      = 0 := by
    intro e
    have h1b : (((List.range cfg.POPULATION).foldl (person_step cfg draws) s).people j).state
        = 1 := h1
    rw [e] at h1b
    exact absurd h1b (by decide)
  obtain ⟨i, hi, p1, p2⟩ := foldl_range_first (person_step cfg draws)
    (fun σ => (σ.people j).state = 0) s cfg.POPULATION h0 hend
  have p1b : ((before_person cfg draws s i).people j).state = 0 := p1
  have p2b : ¬ ((person_step cfg draws (before_person cfg draws s i) i).people j).state = 0 :=
    p2
  have ha : ((before_person cfg draws s i).people i).alive ≠ 0 := by
    intro hz
    apply p2b
    unfold person_step
    rw [if_pos hz]
    exact p1b
  have hij : j ≠ i := by
    intro e
    apply p2b
    rw [e, person_step_self]
    rw [e] at p1b
    unfold own
    rw [if_neg ha]
    rcases advance_health cfg draws ((before_person cfg draws s i).people i)
        (before_person cfg draws s i).next with
      ⟨_, c2, _⟩ | ⟨c1, _⟩ | ⟨c1, _⟩ | ⟨c1, _⟩
    · rw [c2]; exact p1b
    all_goals rw [p1b] at c1; exact absurd c1 (by decide)
  have e1 : person_step cfg draws (before_person cfg draws s i) i =
      spread cfg draws i (spread_start cfg draws s i) := by
    unfold person_step
    rw [if_neg ha]
    rfl
  have hj0 : ((spread_start cfg draws s i).people j).state = 0 := by
    simp only [spread_start, setPerson_other _ _ hij]
    exact p1b
  have hs : ((spread_start cfg draws s i).people i).state = 1 := by
    by_contra hns
    apply p2b
    rw [e1]
    unfold spread
    rw [if_neg hns]
    exact hj0
  rw [e1] at p2b
  unfold spread at p2b
  rw [if_pos hs] at p2b
  obtain ⟨k, hk, q1, q2⟩ := foldl_range_first (infect_step cfg draws i)
    (fun σ => (σ.people j).state = 0) (spread_start cfg draws s i) cfg.POPULATION hj0 p2b
  have hkj : k = j := by
    by_contra hne
    apply q2
    show ((infect_step cfg draws i _ k).people j).state = 0
    rw [infect_step_other cfg draws i _ (fun e => hne e.symm)]
    exact q1
  rw [hkj] at hk q1 q2
  have q1b : ((before_pair cfg draws s i j).people j).state = 0 := q1
  have q2b : ¬ ((infect_step cfg draws i (before_pair cfg draws s i j) j).people j).state
      = 0 := q2
  refine ⟨i, hi, hk, hij, ha, hs, q1b, ?_⟩
  rcases infect_step_people cfg draws i (before_pair cfg draws s i j) j j with e | ⟨_, _, e⟩
  · rw [e] at q2b
    exact absurd q1b q2b
  · rw [e]
    rfl

/-! ## Patient zero of the source configuration -/

theorem source_nonempty : 0 < sourceConfig.POPULATION := by decide

theorem late_draws : ∀ m, ¬ constant_draws (3 / 4) m < 1 / 2 := by
  intro m; unfold constant_draws; norm_num

theorem patient_zero_start :
    (initial sourceConfig zero_rand (fun _ => blank)).people 0 =
      { fresh_person sourceConfig zero_rand 0 with state := 1 } := by
  show initialise_population sourceConfig zero_rand (fun _ => blank) 0 = _
  rw [initialise_population_person sourceConfig zero_rand _ source_nonempty, if_pos rfl]

/-- With every draw `3/4`, patient zero is infected and alive with counter 299
after 299 ticks. -/
theorem patient_zero_incubates :
    ((run sourceConfig (constant_draws (3 / 4)) 299
      (initial sourceConfig zero_rand (fun _ => blank))).people 0).state = 1 ∧
    ((run sourceConfig (constant_draws (3 / 4)) 299
      (initial sourceConfig zero_rand (fun _ => blank))).people 0).alive ≠ 0 ∧
    ((run sourceConfig (constant_draws (3 / 4)) 299
      (initial sourceConfig zero_rand (fun _ => blank))).people 0).infection_time = 299 := by
  obtain ⟨r1, r2, r3⟩ := run_incubation sourceConfig (constant_draws (3 / 4))
    source_nonempty 299 (initial sourceConfig zero_rand (fun _ => blank))
    (by rw [patient_zero_start])
    (by rw [patient_zero_start]; simp [fresh_person])
    (by rw [patient_zero_start]; simp [fresh_person, sourceConfig])
  refine ⟨r1, r2, ?_⟩
  rw [r3, patient_zero_start]
  simp [fresh_person]

theorem patient_zero_due :
    sourceConfig.RECOVERY_TIME ≤
      ((run sourceConfig (constant_draws (3 / 4)) 299
        (initial sourceConfig zero_rand (fun _ => blank))).people 0).infection_time + 1 := by
  rw [patient_zero_incubates.2.2]
  decide

theorem patient_zero_last_tick :
    run sourceConfig (constant_draws (3 / 4)) 300
        (initial sourceConfig zero_rand (fun _ => blank)) =
      update_population sourceConfig (constant_draws (3 / 4))
        (run sourceConfig (constant_draws (3 / 4)) 299
          (initial sourceConfig zero_rand (fun _ => blank))) := by
  rw [run_succ_end]


/-! ## The claims -/

/-- C1: with `1 < RECOVERY_TIME` (the source has 300), one call of
`update_population` changes the state of a person only from Susceptible (0) to
Infected (1) or from Infected (1) to Recovered (2), never turns a zero alive
flag into a nonzero one, and changes the alive flag only to 0 and only of a
person that is Infected before and after the call; hence over any number of
ticks a Recovered person stays Recovered and a zero alive flag stays zero. -/
theorem C1_transitions (cfg : Config) (draws : Nat → ℚ) (s : Sim) (i : Nat)
    (hRT : 1 < cfg.RECOVERY_TIME) :
    (((update_population cfg draws s).people i).state = (s.people i).state ∨
      ((s.people i).state = 0 ∧ ((update_population cfg draws s).people i).state = 1) ∨
      ((s.people i).state = 1 ∧ ((update_population cfg draws s).people i).state = 2)) ∧
    ((s.people i).alive = 0 → ((update_population cfg draws s).people i).alive = 0) ∧
    (((update_population cfg draws s).people i).alive ≠ (s.people i).alive →
      ((update_population cfg draws s).people i).alive = 0 ∧ (s.people i).state = 1 ∧
      ((update_population cfg draws s).people i).state = 1) ∧
    (∀ t : Nat,
      ((s.people i).state = 2 → ((run cfg draws t s).people i).state = 2) ∧
      ((s.people i).alive = 0 → ((run cfg draws t s).people i).alive = 0)) := by
  obtain ⟨h1, h2, h3⟩ := update_lawful cfg draws s i hRT
  refine ⟨h1, h2, h3, fun t => ⟨run_recovered cfg draws i hRT t s, fun hd => ?_⟩⟩
  rw [run_dead cfg draws i t s hd]
  exact hd

/-- C1 at the source configuration, on person 0 of a crowd of fifty. -/
theorem C1_transitions_witness :
    1 < sourceConfig.RECOVERY_TIME ∧
    Lawful ((crowd 299).people 0)
      ((update_population sourceConfig (constant_draws (3 / 10)) (crowd 299)).people 0) :=
  ⟨by decide,
    let h := C1_transitions sourceConfig (constant_draws (3 / 10)) (crowd 299) 0 (by decide)
    ⟨h.1, h.2.1, h.2.2.1⟩⟩

/-- C2: a person whose alive flag is 0 before a call of `update_population`
has the same record (position, velocity, state, counter, alive flag) after the
call, and after any number of further calls. -/
theorem C2_dead_frozen (cfg : Config) (draws : Nat → ℚ) (s : Sim) (i : Nat)
    (hd : (s.people i).alive = 0) :
    (update_population cfg draws s).people i = s.people i ∧
    ∀ t : Nat, (run cfg draws t s).people i = s.people i :=
  ⟨update_dead cfg draws s i hd, fun t => run_dead cfg draws i t s hd⟩

/-- C2 on person 0 of the crowd, dead after the first tick, five ticks later. -/
theorem C2_dead_frozen_witness :
    ((update_population sourceConfig (constant_draws (3 / 10)) (crowd 299)).people 0).alive
      = 0 ∧
    (run sourceConfig (constant_draws (3 / 10)) 5
      (update_population sourceConfig (constant_draws (3 / 10)) (crowd 299))).people 0 =
      (update_population sourceConfig (constant_draws (3 / 10)) (crowd 299)).people 0 :=
  ⟨by decide!,
    (C2_dead_frozen sourceConfig (constant_draws (3 / 10))
      (update_population sourceConfig (constant_draws (3 / 10)) (crowd 299)) 0
      (by decide!)).2 5⟩

/-- C3 fails in the scenario of the specification: two persons, `BETA = 1.0`,
radius 10, person 0 infected at `(0, 0)`, person 1 susceptible at `(5, 0)`, both
at rest.  After one tick person 1 is infected and its counter is 1, not 0: its
own iteration comes after its infection and increments the counter. -/
theorem C3_counterexample :
    (pairSim.people 1).state = 0 ∧
    ((update_population pairConfig (constant_draws (1 / 4)) pairSim).people 1).state = 1 ∧
    ((update_population pairConfig (constant_draws (1 / 4)) pairSim).people 1).infection_time
      = 1 := by
  decide!

/-- C3, amended: a person that is Susceptible before a tick and Infected after
it ends the tick with counter 1 when it was infected before its own iteration
of the loop (by a person of smaller index), and with counter 0 when it was
infected after it (by a person of larger index). -/
theorem C3_fresh_counter (cfg : Config) (draws : Nat → ℚ) (s : Sim) (i : Nat)
    (hi : i < cfg.POPULATION) (h0 : (s.people i).state = 0)
    (h1 : ((update_population cfg draws s).people i).state = 1) :
    ((update_population cfg draws s).people i).infection_time =
      if ((before_person cfg draws s i).people i).state = 1 then 1 else 0 :=
  update_fresh_counter cfg draws s hi h0 h1

/-- C3, amended, in the scenario of the specification. -/
theorem C3_fresh_counter_witness :
    ((update_population pairConfig (constant_draws (1 / 4)) pairSim).people 1).infection_time =
      if ((before_person pairConfig (constant_draws (1 / 4)) pairSim 1).people 1).state = 1
      then 1 else 0 :=
  C3_fresh_counter pairConfig (constant_draws (1 / 4)) pairSim 1 (by decide) (by decide)
    (by decide!)

/-- C4 fails after 300 ticks of the source configuration: with every draw
`3/4`, patient zero recovers in tick 300 and keeps the counter 300. -/
theorem C4_counterexample :
    ((run sourceConfig (constant_draws (3 / 4)) 300
      (initial sourceConfig zero_rand (fun _ => blank))).people 0).infection_time = 300 ∧
    ((run sourceConfig (constant_draws (3 / 4)) 300
      (initial sourceConfig zero_rand (fun _ => blank))).people 0).state = 2 := by
  obtain ⟨u1, u2⟩ := update_recovers sourceConfig (constant_draws (3 / 4)) late_draws
    (run sourceConfig (constant_draws (3 / 4)) 299
      (initial sourceConfig zero_rand (fun _ => blank))) source_nonempty
    patient_zero_incubates.1 patient_zero_incubates.2.1 patient_zero_due
  rw [patient_zero_last_tick]
  refine ⟨?_, u1⟩
  rw [u2, patient_zero_incubates.2.2]
  rfl

/-- C4, amended: in every population reachable from `initialise_population`
by any number of ticks, a person with a nonzero counter is Infected or
Recovered; a Susceptible person has counter 0. -/
theorem C4_counter_states (cfg : Config) (rand : Nat → Nat) (mem : Nat → Person)
    (draws : Nat → ℚ) (t : Nat) (i : Nat) (hi : i < cfg.POPULATION) :
    (((run cfg draws t (initial cfg rand mem)).people i).infection_time ≠ 0 →
      ((run cfg draws t (initial cfg rand mem)).people i).state = 1 ∨
      ((run cfg draws t (initial cfg rand mem)).people i).state = 2) ∧
    (((run cfg draws t (initial cfg rand mem)).people i).state = 0 →
      ((run cfg draws t (initial cfg rand mem)).people i).infection_time = 0) := by
  obtain ⟨h1, h2⟩ := timed_reachable cfg rand mem draws t hi
  refine ⟨fun hne => ?_, h2⟩
  rcases h1 with e | e | e
  · exact absurd (h2 e) hne
  · exact Or.inl e
  · exact Or.inr e

/-- C4, amended, on patient zero of the source configuration after 300 ticks. -/
theorem C4_counter_states_witness :
    0 < sourceConfig.POPULATION ∧
    (((run sourceConfig (constant_draws (3 / 4)) 300
        (initial sourceConfig zero_rand (fun _ => blank))).people 0).infection_time ≠ 0 →
      ((run sourceConfig (constant_draws (3 / 4)) 300
        (initial sourceConfig zero_rand (fun _ => blank))).people 0).state = 1 ∨
      ((run sourceConfig (constant_draws (3 / 4)) 300
        (initial sourceConfig zero_rand (fun _ => blank))).people 0).state = 2) ∧
    (((run sourceConfig (constant_draws (3 / 4)) 300
        (initial sourceConfig zero_rand (fun _ => blank))).people 0).state = 0 →
      ((run sourceConfig (constant_draws (3 / 4)) 300
        (initial sourceConfig zero_rand (fun _ => blank))).people 0).infection_time = 0) :=
  ⟨by decide, C4_counter_states sourceConfig zero_rand (fun _ => blank)
    (constant_draws (3 / 4)) 300 0 (by decide)⟩

/-- C5: for a person alive and Infected at the start of a tick, with `r` the
draw the simulation is at when the loop reaches the person: if the counter
plus 1 is at least `RECOVERY_TIME`, the progression makes exactly that one draw
and the person ends the tick dead and still Infected when `r < 1/2`, Recovered
with its alive flag unchanged (1 when it was 1) otherwise; if the counter plus
1 is below `RECOVERY_TIME`, state and alive flag are unchanged and the counter
is one higher. -/
theorem C5_progression (cfg : Config) (draws : Nat → ℚ) (s : Sim) (i : Nat)
    (hi : i < cfg.POPULATION) (ha : (s.people i).alive ≠ 0) (hs : (s.people i).state = 1) :
    (cfg.RECOVERY_TIME ≤ (s.people i).infection_time + 1 →
      (advance cfg draws (s.people i) (before_person cfg draws s i).next).2 =
        (before_person cfg draws s i).next + 1 ∧
      (draws (before_person cfg draws s i).next < 1 / 2 →
        ((update_population cfg draws s).people i).alive = 0 ∧
        ((update_population cfg draws s).people i).state = 1) ∧
      (¬ draws (before_person cfg draws s i).next < 1 / 2 →
        ((update_population cfg draws s).people i).state = 2 ∧
        ((update_population cfg draws s).people i).alive = (s.people i).alive ∧
        ((s.people i).alive = 1 → ((update_population cfg draws s).people i).alive = 1))) ∧
    ((s.people i).infection_time + 1 < cfg.RECOVERY_TIME →
      ((update_population cfg draws s).people i).state = (s.people i).state ∧
      ((update_population cfg draws s).people i).alive = (s.people i).alive ∧
      ((update_population cfg draws s).people i).infection_time =
        (s.people i).infection_time + 1) := by
  rw [update_self_of_state cfg draws s hi ha (by rw [hs]; decide)]
  rcases advance_health cfg draws (s.people i) (before_person cfg draws s i).next with
    ⟨c1, _⟩ | ⟨c1, c0, c2, c3, c4, c5⟩ | ⟨c1, c0, cd, c2, c3, c4, c5⟩ |
    ⟨c1, c0, cd, c2, c3, c4, c5⟩
  · exact absurd hs c1
  · refine ⟨fun h => absurd h (by omega), fun _ => ⟨by rw [c2, hs], c4, c3⟩⟩
  · refine ⟨fun _ => ⟨c5, fun _ => ⟨c4, c2⟩, fun h => absurd cd h⟩, fun h => absurd h (by omega)⟩
  · refine ⟨fun _ => ⟨c5, fun h => absurd h cd, fun _ => ⟨c2, c4, fun h => by rw [c4, h]⟩⟩,
      fun h => absurd h (by omega)⟩

/-- C5 in the scenario of the specification: `RECOVERY_TIME = 1`, counter
already 1, draw `1/4`: the person ends the tick dead and still Infected. -/
theorem C5_progression_witness :
    ((crowd 1).people 0).alive ≠ 0 ∧ ((crowd 1).people 0).state = 1 ∧
    ((update_population quickConfig (constant_draws (1 / 4)) (crowd 1)).people 0).alive = 0 ∧
    ((update_population quickConfig (constant_draws (1 / 4)) (crowd 1)).people 0).state = 1 :=
  ⟨by decide, by decide,
    ((C5_progression quickConfig (constant_draws (1 / 4)) (crowd 1) 0 (by decide) (by decide)
      (by decide)).1 (by decide)).2.1 (by unfold constant_draws; norm_num)⟩

/-- C6, the code at the failing input: fifty persons at rest, person 0 the only
Infected one, with counter 299, every draw `3/10`.  The progression of person 0
sets its alive flag to 0; its inner loop runs all the same (its state is still
1) and its pair step with person 1 infects person 1, which was Susceptible at
the start of the tick and is Infected at the end of it. -/
theorem C6_dying_person_infects :
    (∀ k, k < 50 → (((crowd 299).people k).state = 1 ↔ k = 0)) ∧
    ((crowd 299).people 0).alive = 1 ∧ ((crowd 299).people 1).state = 0 ∧
    ((before_pair sourceConfig (constant_draws (3 / 10)) (crowd 299) 0 1).people 0).alive = 0 ∧
    ((before_pair sourceConfig (constant_draws (3 / 10)) (crowd 299) 0 1).people 1).state = 0 ∧
    ((infect_step sourceConfig (constant_draws (3 / 10)) 0
      (before_pair sourceConfig (constant_draws (3 / 10)) (crowd 299) 0 1) 1).people 1).state
      = 1 ∧
    ((update_population sourceConfig (constant_draws (3 / 10)) (crowd 299)).people 0).alive
      = 0 ∧
    ((update_population sourceConfig (constant_draws (3 / 10)) (crowd 299)).people 1).state
      = 1 := by
  decide!

/-- C7 fails at the source configuration: person 0 Infected at rest at
`(0, 0)`, person 1 Susceptible at `(9, 0)` moving right by 2, every draw `3/10`.
The pair step of persons 0 and 1 infects person 1, yet after the movement of
both the persons are 11 apart, beyond the radius 10: the inner loop of person 0
reads the position of person 1 before person 1 has moved. -/
theorem C7_counterexample :
    ((before_pair sourceConfig (constant_draws (3 / 10)) approach 0 1).people 1).state = 0 ∧
    ((infect_step sourceConfig (constant_draws (3 / 10)) 0
      (before_pair sourceConfig (constant_draws (3 / 10)) approach 0 1) 1).people 1).state
      = 1 ∧
    ((update_population sourceConfig (constant_draws (3 / 10)) approach).people 1).state = 1 ∧
    withinRadius sourceConfig.INFECTION_RADIUS (move (approach.people 0))
      (move (approach.people 1)) = false := by
  decide!

/-- C7, amended: an agent `j` Susceptible before a call of `update_population`
and Infected after it was infected by the pair step `(i, j)` of the call, for
an agent `i` of the population other than `j`, alive at the start of the tick
and Infected at the end of it: the call is that pair step followed by the rest
of the inner loop of `i` and the rest of the outer loop, the draw of the pair is
below `BETA`, and the distance test holds between the position of `i` after its
movement of this tick (old position plus old velocity) and the position of `j`
as the array holds it then: after the movement of `j` of this tick when
`j < i`, before it (the position at the start of the tick) when `i < j`. -/
theorem C7_current_positions (cfg : Config) (draws : Nat → ℚ) (s : Sim) (j : Nat)
    (h0 : (s.people j).state = 0)
    (h1 : ((update_population cfg draws s).people j).state = 1) :
    ∃ i, i < cfg.POPULATION ∧ j < cfg.POPULATION ∧ j ≠ i ∧
      (s.people i).alive ≠ 0 ∧ (s.people j).alive ≠ 0 ∧
      ((update_population cfg draws s).people i).state = 1 ∧
      update_population cfg draws s =
        (List.range' (i + 1) (cfg.POPULATION - (i + 1))).foldl (person_step cfg draws)
          ((List.range' (j + 1) (cfg.POPULATION - (j + 1))).foldl (infect_step cfg draws i)
            (infect_step cfg draws i (before_pair cfg draws s i j) j)) ∧
      ((before_pair cfg draws s i j).people j).state = 0 ∧
      ((infect_step cfg draws i (before_pair cfg draws s i j) j).people j).state = 1 ∧
      draws (before_pair cfg draws s i j).next < cfg.BETA ∧
      withinRadius cfg.INFECTION_RADIUS (move (s.people i))
        (if j < i then move (s.people j) else s.people j) = true := by
  obtain ⟨i, hi, hj, hij, ha, hs, q1, q2⟩ := update_infector cfg draws s j h0 h1
  obtain ⟨_, _, hd, hw⟩ := pair_step_positions cfg draws s i j q1 hs q2
  have hai : (s.people i).alive ≠ 0 := by
    have t : Touched (s.people i) ((before_person cfg draws s i).people i) :=
      foldl_person_other cfg draws i _ (by simp) s
    rw [← t.kinematics.2.2.2.2]
    exact ha
  have haj : (s.people j).alive ≠ 0 := by
    intro hz
    rw [update_dead cfg draws s j hz, h0] at h1
    exact absurd h1 (by decide)
  have hend : ((update_population cfg draws s).people i).state = 1 := by
    obtain ⟨_, t2⟩ := update_person cfg draws s hi
    unfold own at t2
    rw [if_neg ha] at t2
    have e : (spread_start cfg draws s i).people i =
        (advance cfg draws ((before_person cfg draws s i).people i)
          (before_person cfg draws s i).next).1 := by
      simp only [spread_start, setPerson_same]
    rw [← e] at t2
    rw [t2.eq_of_state (by rw [hs]; decide)]
    exact hs
  exact ⟨i, hi, hj, hij, hai, haj, hend, update_through_pair cfg draws s hi hj ha hs,
    q1, q2, hd, hw⟩

/-- C7, amended, on person 1 of `approach`, infected in the tick although it
is 11 away from person 0 after both movements. -/
theorem C7_current_positions_witness :
    (approach.people 1).state = 0 ∧
    ((update_population sourceConfig (constant_draws (3 / 10)) approach).people 1).state = 1 ∧
    ∃ i, i < sourceConfig.POPULATION ∧ 1 < sourceConfig.POPULATION ∧ 1 ≠ i ∧
      (approach.people i).alive ≠ 0 ∧ (approach.people 1).alive ≠ 0 ∧
      ((update_population sourceConfig (constant_draws (3 / 10)) approach).people i).state
        = 1 ∧
      update_population sourceConfig (constant_draws (3 / 10)) approach =
        (List.range' (i + 1) (sourceConfig.POPULATION - (i + 1))).foldl
          (person_step sourceConfig (constant_draws (3 / 10)))
          ((List.range' (1 + 1) (sourceConfig.POPULATION - (1 + 1))).foldl
            (infect_step sourceConfig (constant_draws (3 / 10)) i)
            (infect_step sourceConfig (constant_draws (3 / 10)) i
              (before_pair sourceConfig (constant_draws (3 / 10)) approach i 1) 1)) ∧
      ((before_pair sourceConfig (constant_draws (3 / 10)) approach i 1).people 1).state
        = 0 ∧
      ((infect_step sourceConfig (constant_draws (3 / 10)) i
        (before_pair sourceConfig (constant_draws (3 / 10)) approach i 1) 1).people 1).state
        = 1 ∧
      constant_draws (3 / 10)
        (before_pair sourceConfig (constant_draws (3 / 10)) approach i 1).next
        < sourceConfig.BETA ∧
      withinRadius sourceConfig.INFECTION_RADIUS (move (approach.people i))
        (if 1 < i then move (approach.people 1) else approach.people 1) = true :=
  ⟨by decide, by decide!,
    C7_current_positions sourceConfig (constant_draws (3 / 10)) approach 1 (by decide)
      (by decide!)⟩

/-- C8: one call of `update_population` sets the position of every living
person to its old position plus its old velocity, and negates `dx` exactly when
the new `x` is `≤ 0` or `≥ WINDOW_WIDTH` (`dy` likewise with the new `y` and
`WINDOW_HEIGHT`); the velocity is unchanged otherwise. -/
theorem C8_movement (cfg : Config) (draws : Nat → ℚ) (s : Sim) (i : Nat)
    (hi : i < cfg.POPULATION) (ha : (s.people i).alive ≠ 0) :
    ((update_population cfg draws s).people i).x = (s.people i).x + (s.people i).dx ∧
    ((update_population cfg draws s).people i).y = (s.people i).y + (s.people i).dy ∧
    ((update_population cfg draws s).people i).dx =
      (if ((update_population cfg draws s).people i).x ≤ 0 ∨
          ((update_population cfg draws s).people i).x ≥ (cfg.WINDOW_WIDTH : ℚ)
        then -(s.people i).dx else (s.people i).dx) ∧
    ((update_population cfg draws s).people i).dy =
      (if ((update_population cfg draws s).people i).y ≤ 0 ∨
          ((update_population cfg draws s).people i).y ≥ (cfg.WINDOW_HEIGHT : ℚ)
        then -(s.people i).dy else (s.people i).dy) := by
  obtain ⟨h1, h2, h3, h4⟩ := update_kinematics cfg draws s hi ha
  refine ⟨h1, h2, ?_, ?_⟩
  · rw [h3, h1]
  · rw [h4, h2]

/-- C8 in the scenario of the specification: a single person at
`x = WINDOW_WIDTH = 800` with `dx = 2` has `x = 802` and `dx = -2` after one tick. -/
theorem C8_movement_witness :
    (edge.people 0).alive ≠ 0 ∧
    ((update_population singleConfig (constant_draws 0) edge).people 0).x = 802 ∧
    ((update_population singleConfig (constant_draws 0) edge).people 0).dx = -2 := by
  obtain ⟨h1, _, h3, _⟩ :=
    C8_movement singleConfig (constant_draws 0) edge 0 (by decide) (by decide)
  have e : ((update_population singleConfig (constant_draws 0) edge).people 0).x = 802 := by
    rw [h1]; simp [edge]; norm_num
  refine ⟨by decide, e, ?_⟩
  rw [h3, e]
  norm_num [edge, singleConfig, sourceConfig]

/-- C9 fails at the test configuration (`BETA = 1.0`, infinite radius): person 0
is alive and Infected with counter 299, every draw is `7/10`.  Person 0 recovers
in its progression, so its inner loop does not run, and person 1, alive and
Susceptible at the start of the tick, is still Susceptible at the end. -/
theorem C9_counterexample :
    ((crowd 299).people 0).state = 1 ∧ ((crowd 299).people 0).alive = 1 ∧
    ((crowd 299).people 1).state = 0 ∧ ((crowd 299).people 1).alive = 1 ∧
    ((update_population certainConfig (constant_draws (7 / 10)) (crowd 299)).people 0).state
      = 2 ∧
    ((update_population certainConfig (constant_draws (7 / 10)) (crowd 299)).people 1).state
      = 0 := by
  decide!

/-- C9, amended: with `BETA = 1.0`, an infinite radius, `1 < RECOVERY_TIME` and
every draw in `[0, 1)`: if some person is alive and Infected at the start of a
tick and still alive and Infected at the end of it, then every person alive and
Susceptible at the start of the tick is Infected at the end of it. -/
theorem C9_certain_spread (cfg : Config) (draws : Nat → ℚ) (s : Sim) (k j : Nat)
    (hr : cfg.INFECTION_RADIUS = Radius.unbounded) (hb : cfg.BETA = 1)
    (hRT : 1 < cfg.RECOVERY_TIME) (hd : ∀ m, 0 ≤ draws m ∧ draws m < 1)
    (hk : k < cfg.POPULATION) (hk1 : (s.people k).state = 1) (hk2 : (s.people k).alive ≠ 0)
    (hk3 : ((update_population cfg draws s).people k).state = 1)
    (_hk4 : ((update_population cfg draws s).people k).alive ≠ 0)
    (hj : j < cfg.POPULATION) (hj1 : (s.people j).state = 0) (hj2 : (s.people j).alive ≠ 0) :
    ((update_population cfg draws s).people j).state = 1 := by
  have hd2 : ∀ m, draws m < cfg.BETA := fun m => by rw [hb]; exact (hd m).2
  have hx := update_certain cfg draws hr hd2 s hk hk1 hk2 hk3 hj
  obtain ⟨l1, _, l3⟩ := update_lawful cfg draws s j hRT
  unfold Exposed at hx
  by_contra hne
  apply hx
  constructor
  · omega
  · intro h0
    have := l3 (by rw [h0]; exact fun e => hj2 e.symm)
    omega

/-- C9, amended, at the test configuration: person 0 of the crowd, with
counter 0, stays alive and Infected, and person 1 ends the tick Infected. -/
theorem C9_certain_spread_witness :
    ((crowd 0).people 0).state = 1 ∧ ((crowd 0).people 1).state = 0 ∧
    ((update_population certainConfig (constant_draws (7 / 10)) (crowd 0)).people 1).state
      = 1 :=
  ⟨by decide, by decide,
    C9_certain_spread certainConfig (constant_draws (7 / 10)) (crowd 0) 0 1 rfl rfl
      (by decide) (fun _ => by unfold constant_draws; norm_num) (by decide) (by decide)
      (by decide) (by decide!) (by decide!) (by decide) (by decide) (by decide)⟩

/-- C10: `initialise_population` gives every person an integer `x` in
`[0, 799]`, an integer `y` in `[0, 599]`, `dx` in `{-2, 0, 2}` and `dy` in
`{-4.5, 0, 4.5}`, and in every population reachable from it by any number of
ticks of the source configuration every person has `-2 ≤ x ≤ 802` and
`-4.5 ≤ y ≤ 604.5`. -/
theorem C10_bounded_overshoot (rand : Nat → Nat) (mem : Nat → Person) (draws : Nat → ℚ)
    (t : Nat) (i : Nat) (hi : i < sourceConfig.POPULATION) :
    ((∃ n : Nat, n ≤ 799 ∧ ((initial sourceConfig rand mem).people i).x = (n : ℚ)) ∧
      (∃ n : Nat, n ≤ 599 ∧ ((initial sourceConfig rand mem).people i).y = (n : ℚ)) ∧
      (((initial sourceConfig rand mem).people i).dx = -2 ∨
        ((initial sourceConfig rand mem).people i).dx = 0 ∨
        ((initial sourceConfig rand mem).people i).dx = 2) ∧
      (((initial sourceConfig rand mem).people i).dy = -(9 / 2) ∨
        ((initial sourceConfig rand mem).people i).dy = 0 ∨
        ((initial sourceConfig rand mem).people i).dy = 9 / 2)) ∧
    -2 ≤ ((run sourceConfig draws t (initial sourceConfig rand mem)).people i).x ∧
    ((run sourceConfig draws t (initial sourceConfig rand mem)).people i).x ≤ 802 ∧
    -(9 / 2) ≤ ((run sourceConfig draws t (initial sourceConfig rand mem)).people i).y ∧
    ((run sourceConfig draws t (initial sourceConfig rand mem)).people i).y ≤ 1209 / 2 := by
  obtain ⟨⟨x1, x2, _⟩, ⟨y1, y2, _⟩⟩ := boxed_reachable rand mem draws t hi
  refine ⟨?_, x1, x2, y1, y2⟩
  have e : (initial sourceConfig rand mem).people i =
      if i = 0 then { fresh_person sourceConfig rand 0 with state := 1 }
      else fresh_person sourceConfig rand i :=
    initialise_population_person sourceConfig rand mem hi
  have hb : ∀ k, Boxed (fresh_person sourceConfig rand k) := boxed_fresh rand
  have hx : ∀ k, rand (4 * k) % 800 ≤ 799 := fun k =>
    Nat.le_of_lt_succ (Nat.mod_lt _ (by norm_num))
  have hy : ∀ k, rand (4 * k + 1) % 600 ≤ 599 := fun k =>
    Nat.le_of_lt_succ (Nat.mod_lt _ (by norm_num))
  rw [e]
  split_ifs
  · exact ⟨⟨_, hx 0, rfl⟩, ⟨_, hy 0, rfl⟩, (hb 0).1.2.2.1, (hb 0).2.2.2.1⟩
  · exact ⟨⟨_, hx i, rfl⟩, ⟨_, hy i, rfl⟩, (hb i).1.2.2.1, (hb i).2.2.2.1⟩

/-- C10 on person 7 of the source configuration after 1000 ticks. -/
theorem C10_bounded_overshoot_witness :
    7 < sourceConfig.POPULATION ∧
    -2 ≤ ((run sourceConfig (constant_draws (3 / 4)) 1000
      (initial sourceConfig zero_rand (fun _ => blank))).people 7).x ∧
    ((run sourceConfig (constant_draws (3 / 4)) 1000
      (initial sourceConfig zero_rand (fun _ => blank))).people 7).x ≤ 802 ∧
    -(9 / 2) ≤ ((run sourceConfig (constant_draws (3 / 4)) 1000
      (initial sourceConfig zero_rand (fun _ => blank))).people 7).y ∧
    ((run sourceConfig (constant_draws (3 / 4)) 1000
      (initial sourceConfig zero_rand (fun _ => blank))).people 7).y ≤ 1209 / 2 :=
  ⟨by decide, (C10_bounded_overshoot zero_rand (fun _ => blank) (constant_draws (3 / 4))
    1000 7 (by decide)).2⟩

end BioSim
